import Mathlib

/-!
Verification of the RF/WiFi diagnostic pipeline of the `meraki_mcpv2`
repository.  The Python sources `src/meraki_mcp/rf/spectrum.py`,
`src/meraki_mcp/rf/analyzer.py` and `src/meraki_mcp/wifi/wifi_troubleshooter.py`
are shallow-embedded below: Python floats become exact rationals (`ℚ`),
Python ints become `ℤ`/`ℕ`, dictionaries with optional keys become structures
with `Option` fields, raised exceptions become `Except` values, and the
external collaborators (Meraki API client, knowledge base) become explicit
environment records whose responses are inputs of the embedded functions.
-/

namespace MerakiMCP

set_option maxRecDepth 20000

/-! ## Python primitives -/

/-- Python `int(q)`: truncation toward zero (on the exact rationals standing in
for the source's float arithmetic). -/
def pyInt (q : ℚ) : ℤ := if q < 0 then -⌊-q⌋ else ⌊q⌋

/-- Python `s.lower()` applied to the character data of a string (the source
only lowercases ASCII text). -/
def lowerData (s : String) : List Char := s.data.map Char.toLower

/-- Python `needle in hay.lower()` for an already-lowercase `needle`:
the needle's characters occur contiguously in the lowercased haystack. -/
def inLower (needle : String) (hay : String) : Prop :=
  needle.data <:+: lowerData hay

instance (needle hay : String) : Decidable (inLower needle hay) := by
  unfold inLower lowerData; exact inferInstance

/-- Python list deduplication loop used by `_get_recommendations`
(lines 906-909): keep the first occurrence of each string. -/
def pyDedup (seen : List String) : List String → List String
  | [] => []
  | r :: rest => if r ∈ seen then pyDedup seen rest else r :: pyDedup (seen ++ [r]) rest

/-! ## `rf/spectrum.py`: data model -/

/-- `FrequencyBand` enum (spectrum.py lines 16-21). -/
inductive FrequencyBand where
  | band24 | band5 | band6
deriving DecidableEq

/-- `ChannelWidth` enum (spectrum.py lines 24-30). -/
inductive ChannelWidth where
  | w20 | w40 | w80 | w160
deriving DecidableEq

/-- `SpectrumDataPoint` dataclass (spectrum.py lines 33-47). -/
structure SpectrumDataPoint where
  frequency : ℚ
  power : ℚ
  utilization : ℚ
  timestamp : ℤ
deriving DecidableEq

/-- `SpectrumData` dataclass (spectrum.py lines 50-72).  The `metadata` dict is
omitted: it is never read by the analyzer. -/
structure SpectrumData where
  access_point_serial : String
  band : FrequencyBand
  channel : ℤ
  channel_width : ChannelWidth
  data_points : List SpectrumDataPoint := []
  start_time : ℤ := 0
  end_time : ℤ := 0
deriving DecidableEq

/-- `SpectrumData.get_average_utilization` (spectrum.py lines 100-110). -/
def SpectrumData.getAverageUtilization (d : SpectrumData) : ℚ :=
  if d.data_points = [] then 0
  else (d.data_points.map (·.utilization)).sum / d.data_points.length

/-- `InterferenceSource` dataclass (spectrum.py lines 126-144).
`impact_level` and `confidence` are Python ints. -/
structure InterferenceSource where
  type : String
  frequency_range : ℚ × ℚ
  avg_power : ℚ
  impact_level : ℤ
  confidence : ℤ
  description : String
deriving DecidableEq

/-- `SpectrumAnalysis` dataclass (spectrum.py lines 147-165).  The
`recommendations` and `summary` fields (pure string reporting built by
`_generate_recommendations` / `_create_analysis_summary`) are not referenced
by any claim and are omitted from the embedding. -/
structure SpectrumAnalysis where
  spectrum_data : SpectrumData
  noise_floor : ℚ
  interference_sources : List InterferenceSource := []
  channel_quality : ℤ := 0
deriving DecidableEq

/-! ## `rf/analyzer.py`: RFAnalyzer -/

/-- `RFAnalysisError` (analyzer.py lines 23-35).  The `details` dict is only
ever `{}` or `{"errors": [...]}` in the source, so it is embedded as the list
of collected error strings. -/
structure RFAnalysisError where
  message : String
  detailErrors : List String := []
deriving DecidableEq

/-- `RFAnalyzer._calculate_noise_floor` (analyzer.py lines 110-126): with no
data points return −95 dBm, otherwise the entry at index
`max(0, int(N * 0.1) - 1)` of the ascending-sorted power readings.  The index
is in range, so `getD`'s default is never used. -/
def calculateNoiseFloor (d : SpectrumData) : ℚ :=
  if d.data_points = [] then -95
  else
    let powers := List.insertionSort (· ≤ ·) (d.data_points.map (·.power))
    powers.getD (max 0 (pyInt ((powers.length : ℚ) * (1/10)) - 1)).toNat 0

/-- The `microwave_affected_data_points` list comprehension of analyzer.py
lines 177-180: points in the [2445,2465] MHz window whose power exceeds the
noise floor by more than 10 dB. -/
def microwaveAffectedPoints (d : SpectrumData) (noiseFloor : ℚ) :
    List SpectrumDataPoint :=
  d.data_points.filter fun dp =>
    decide (2445 ≤ dp.frequency ∧ dp.frequency ≤ 2465 ∧ dp.power > noiseFloor + 10)

/-- `RFAnalyzer._check_for_2_4ghz_interference` (analyzer.py lines 161-214). -/
def checkFor24GhzInterference (d : SpectrumData) (noiseFloor : ℚ) :
    List InterferenceSource :=
  let microPoints := microwaveAffectedPoints d noiseFloor
  let microSources : List InterferenceSource :=
    if microPoints ≠ [] ∧ microPoints.length > 5 then
      let avgPower := (microPoints.map (·.power)).sum / microPoints.length
      [{ type := "microwave", frequency_range := (2445, 2465), avg_power := avgPower,
         impact_level := min 100 (pyInt ((avgPower - noiseFloor) * 5)),
         confidence := 75,
         description := "Possible microwave oven interference detected" }]
    else []
  let bluePoints := d.data_points.filter fun dp =>
    decide (2402 ≤ dp.frequency ∧ dp.frequency ≤ 2480 ∧ dp.power > noiseFloor + 5)
  let blueSources : List InterferenceSource :=
    if bluePoints ≠ [] ∧ bluePoints.length > 10 then
      let avgPower := (bluePoints.map (·.power)).sum / bluePoints.length
      [{ type := "bluetooth", frequency_range := (2402, 2480), avg_power := avgPower,
         impact_level := min 100 (pyInt ((avgPower - noiseFloor) * 3)),
         confidence := 65,
         description := "Bluetooth device interference detected" }]
    else []
  microSources ++ blueSources

/-- `RFAnalyzer._check_for_5ghz_interference` (analyzer.py lines 216-249). -/
def checkFor5GhzInterference (d : SpectrumData) (noiseFloor : ℚ) :
    List InterferenceSource :=
  let radarPoints := d.data_points.filter fun dp =>
    decide (5250 ≤ dp.frequency ∧ dp.frequency ≤ 5350 ∧ dp.power > noiseFloor + 15)
  if radarPoints ≠ [] ∧ radarPoints.length > 3 then
    let avgPower := (radarPoints.map (·.power)).sum / radarPoints.length
    [{ type := "radar", frequency_range := (5250, 5350), avg_power := avgPower,
       impact_level := min 100 (pyInt ((avgPower - noiseFloor) * 4)),
       confidence := 80,
       description := "Possible radar/DFS interference detected" }]
  else []

/-- `RFAnalyzer._identify_interference` (analyzer.py lines 128-159);
6 GHz has no rules and yields the empty list (lines 251-265). -/
def identifyInterference (d : SpectrumData) (noiseFloor : ℚ) :
    List InterferenceSource :=
  match d.band with
  | .band24 => checkFor24GhzInterference d noiseFloor
  | .band5 => checkFor5GhzInterference d noiseFloor
  | .band6 => []

/-- `RFAnalyzer._evaluate_channel_quality` (analyzer.py lines 267-301). -/
def evaluateChannelQuality (d : SpectrumData) (noiseFloor : ℚ)
    (sources : List InterferenceSource) : ℤ :=
  let q1 : ℤ := 100
  let q2 := if noiseFloor > -85 then q1 - min 30 (pyInt ((noiseFloor + 85) * 3)) else q1
  let avgUtilization := d.getAverageUtilization
  let q3 := if avgUtilization > 20 then q2 - min 40 (pyInt (avgUtilization / 2)) else q2
  let q4 := sources.foldl (fun q s => q - min 30 (pyInt ((s.impact_level : ℚ) / 3))) q3
  max 0 (min 100 q4)

/-- `RFAnalyzer.analyze_spectrum` body on a well-typed `SpectrumData`
(analyzer.py lines 55-104). -/
def analyzeSpectrumData (d : SpectrumData) : SpectrumAnalysis :=
  let noiseFloor := calculateNoiseFloor d
  let sources := identifyInterference d noiseFloor
  { spectrum_data := d, noise_floor := noiseFloor,
    interference_sources := sources,
    channel_quality := evaluateChannelQuality d noiseFloor sources }

/-- Input of `analyze_spectrum`.  On a well-typed `SpectrumData` the analysis
body is total; `malformed` models a Python input whose processing raises inside
the `try` block (dynamic typing, e.g. non-numeric data points), carrying the
access-point serial and the raised exception's message. -/
inductive SpectrumInput where
  | wellFormed (d : SpectrumData)
  | malformed (serial : String) (excMsg : String)
deriving DecidableEq

/-- The `spectrum_data.access_point_serial` attribute of either input form. -/
def SpectrumInput.serial : SpectrumInput → String
  | .wellFormed d => d.access_point_serial
  | .malformed s _ => s

/-- `RFAnalyzer.analyze_spectrum` (analyzer.py lines 55-108): any exception in
the body is re-raised as `RFAnalysisError` with message
`"Failed to analyze spectrum data: ..."` and empty details. -/
def analyzeSpectrum : SpectrumInput → Except RFAnalysisError SpectrumAnalysis
  | .wellFormed d => .ok (analyzeSpectrumData d)
  | .malformed _ msg => .error ⟨"Failed to analyze spectrum data: " ++ msg, []⟩

/-- Python `dict` assignment `m[k] = v` on an insertion-ordered map:
an existing key keeps its position and is overwritten, a new key is appended. -/
def dictInsert : List (String × SpectrumAnalysis) → String → SpectrumAnalysis →
    List (String × SpectrumAnalysis)
  | [], k, v => [(k, v)]
  | p :: rest, k, v => if p.1 = k then (k, v) :: rest else p :: dictInsert rest k v

/-- The loop of `RFAnalyzer.batch_analyze` (analyzer.py lines 456-466):
successful analyses go into the `results` dict, failures append an error
string. -/
def batchGo : List SpectrumInput → List (String × SpectrumAnalysis) →
    List String → List (String × SpectrumAnalysis) × List String
  | [], results, errors => (results, errors)
  | it :: rest, results, errors =>
    match analyzeSpectrum it with
    | .ok a => batchGo rest (dictInsert results it.serial a) errors
    | .error e =>
      batchGo rest results
        (errors ++ ["Error analyzing AP " ++ it.serial ++ ": " ++ e.message])

/-- `RFAnalyzer.batch_analyze` (analyzer.py lines 439-474): if errors were
collected and no result succeeded, fail with an `RFAnalysisError` carrying all
sub-errors; otherwise return the successful subset. -/
def batchAnalyze (items : List SpectrumInput) :
    Except RFAnalysisError (List (String × SpectrumAnalysis)) :=
  let go := batchGo items [] []
  if go.2 ≠ [] ∧ go.1 = [] then
    .error ⟨"Batch analysis failed for all " ++ toString items.length ++ " access points",
            go.2⟩
  else .ok go.1

/-- The error string collected for a failing batch item (analyzer.py
line 460), `none` when its analysis succeeds. -/
def analysisErrMsg (it : SpectrumInput) : Option String :=
  match analyzeSpectrum it with
  | .ok _ => none
  | .error e => some ("Error analyzing AP " ++ it.serial ++ ": " ++ e.message)

/-- The result-map entry for a successful batch item (analyzer.py line 458),
`none` when its analysis fails. -/
def analysisOkPair (it : SpectrumInput) : Option (String × SpectrumAnalysis) :=
  match analyzeSpectrum it with
  | .ok a => some (it.serial, a)
  | .error _ => none

/-! ## `wifi/wifi_troubleshooter.py`: data model

Python dictionaries with optional keys become structures with `Option` fields
(`none` = key absent).  An input dict parameter that may be `None` or `{}`
becomes an `Option` of the structure, with `none` standing for both (`None`
and the empty dict are equally falsy and produce only default `get`s). -/

/-- A Python-level exception raised by the embedded code.  The only exception
the well-typed embedding can raise is the `TypeError` produced by calling
`WifiIssue(...)` with the unexpected keyword argument `details`
(`WifiIssue.__init__`, lines 46-54, accepts no such parameter). -/
inductive PyErr where
  | typeError
deriving DecidableEq

/-- One entry of a device's `radios` list
(used at wifi_troubleshooter.py lines 1038-1057). -/
structure Radio where
  status : Option String := none
  band : Option String := none
  channelUtilization : Option ℚ := none
deriving DecidableEq

/-- One failed-connection record (lines 1107-1112, 1260). -/
structure FailedConnection where
  failureReason : Option String := none
deriving DecidableEq

/-- One device record from `get_network_devices` (lines 960-1001).
`serial` is accessed by direct indexing in the source, so it is mandatory. -/
structure Device where
  serial : String
  model : Option String := none
  status : Option String := none
  name : Option String := none
  tags : Option (List String) := none
deriving DecidableEq

/-- One client record from `get_network_clients` (lines 1088-1175). -/
structure NetworkClient where
  ssid : Option String := none
  signal : Option ℚ := none
  protocol : Option String := none
deriving DecidableEq

/-- The SSID config returned by `get_network_wireless_ssid` during API
validation (lines 1226-1239). -/
structure SsidFetchResult where
  enabled : Bool := false
  hidden : Bool := false
  authMode : Option String := none
  hasRadiusServers : Bool := false
deriving DecidableEq

deriving instance DecidableEq for Except

/-- Responses of the external Meraki API client for one troubleshoot
invocation.  `.error ()` models the call raising an `ApiError`/exception.
`wirelessStatusRadios` is the `radios` list of
`get_device_wireless_status(sample_ap)`; the source only ever queries the
first wireless AP, so a single response suffices. -/
structure ApiEnv where
  devices : Except Unit (List Device) := .error ()
  wirelessStatusRadios : Except Unit (List Radio) := .error ()
  clients : Except Unit (List NetworkClient) := .error ()
  failedConnections : Except Unit (List FailedConnection) := .error ()
  ssidFetch : Except Unit SsidFetchResult := .error ()
deriving DecidableEq

/-- The `dot11w` sub-dict of the SSID data (lines 387-389). -/
structure Dot11w where
  enabled : Option Bool := none
  required : Option Bool := none
deriving DecidableEq

/-- The `ssid_data` input dict (keys read at lines 356-466, 987-990,
1094-1175, 1221-1239). -/
structure SsidData where
  enabled : Option Bool := none
  broadcasting : Option Bool := none
  authMode : Option String := none
  dot11w : Option Dot11w := none
  availabilityTags : Option (List String) := none
  availableOnAllAps : Option Bool := none
  number : Option ℤ := none
  name : Option String := none
deriving DecidableEq

/-- The `client_data` input dict (keys read at lines 487-531). -/
structure ClientData where
  status : Option String := none
  failureReason : Option String := none
  signal : Option ℚ := none
deriving DecidableEq

/-- The `validation_details` dict attached to an issue by `_validate_with_api`
(lines 1210-1261).  Each field is `some` exactly when the corresponding key is
set. `authType` holds `ssid_details.get("authMode")`, which may itself be
`None`. -/
structure ValidationDetails where
  ssidEnabled : Option Bool := none
  ssidVisible : Option Bool := none
  authType : Option (Option String) := none
  radiusConfigured : Option Bool := none
  apStatus : Option (List Radio) := none
  failedConnections : Option (List FailedConnection) := none
deriving DecidableEq

/-- `WifiIssue` (wifi_troubleshooter.py lines 35-69).  `severity` is a Python
int. -/
structure WifiIssue where
  issue_type : String
  issue_subtype : String
  severity : ℤ
  description : String
  affected_components : List String
  validation_details : ValidationDetails := {}
deriving DecidableEq

/-- The dictionary produced by `WifiIssue.to_dict` (lines 71-84). -/
structure IssueDict where
  issue_type : String
  issue_subtype : String
  severity : ℤ
  description : String
  affected_components : List String
  validation_details : ValidationDetails
deriving DecidableEq

/-- `WifiIssue.to_dict` (lines 71-84). -/
def WifiIssue.toDict (i : WifiIssue) : IssueDict :=
  ⟨i.issue_type, i.issue_subtype, i.severity, i.description,
   i.affected_components, i.validation_details⟩

/-- Python `max(l, key=lambda x: x.severity)` over `i :: l`: the accumulator is
replaced only on a strictly greater key, so the first maximal element wins. -/
def pyMaxBySeverity (i : WifiIssue) (l : List WifiIssue) : WifiIssue :=
  l.foldl (fun acc x => if acc.severity < x.severity then x else acc) i

/-- `primary_issue = max(issues, key=lambda x: x.severity) if issues else None`
(line 116). -/
def primaryIssueOf : List WifiIssue → Option WifiIssue
  | [] => none
  | i :: is => some (pyMaxBySeverity i is)

/-- `TroubleshootingResult` (lines 87-120).  The raw `network_data` audit blob
is omitted: it is input data echoed back, read by no claim and excluded from
`to_dict`. Knowledge references are opaque payloads from the knowledge base and
are embedded as strings. -/
structure TroubleshootingResult where
  issues : List WifiIssue
  primary_issue : Option WifiIssue
  confidence : ℤ
  recommendations : List String
  knowledge_references : List String
deriving DecidableEq

/-- `TroubleshootingResult.__init__` (lines 98-120): `primary_issue` is
computed from the issues, everything else stored as passed. -/
def mkTroubleshootingResult (issues : List WifiIssue) (confidence : ℤ)
    (recommendations : List String) (knowledge_references : List String) :
    TroubleshootingResult :=
  ⟨issues, primaryIssueOf issues, confidence, recommendations, knowledge_references⟩

/-- The dictionary produced by `TroubleshootingResult.to_dict` (lines 122-134). -/
structure ResultDict where
  issues : List IssueDict
  primary_issue : Option IssueDict
  confidence : ℤ
  recommendations : List String
  knowledge_references : List String
deriving DecidableEq

/-- `TroubleshootingResult.to_dict` (lines 122-134): `primary_issue` maps to
`None`/null when absent. -/
def TroubleshootingResult.toDict (r : TroubleshootingResult) : ResultDict :=
  ⟨r.issues.map WifiIssue.toDict, r.primary_issue.map WifiIssue.toDict,
   r.confidence, r.recommendations, r.knowledge_references⟩

/-- `WifiTroubleshootingError` as raised by `troubleshoot` (lines 310-319) or
by a failing knowledge-base initialization (lines 175-179). -/
inductive WifiTroubleshootingErr where
  | kbInitFailed
  | unexpected (e : PyErr)
deriving DecidableEq

/-! ## Dict getters shared by the checks -/

/-- `ssid_data.get("enabled", True)` over the possibly-absent dict. -/
def ssidEnabled (sd : Option SsidData) : Bool := ((sd.bind (·.enabled)).getD true)

/-- `ssid_data.get("broadcasting", True)`. -/
def ssidBroadcasting (sd : Option SsidData) : Bool := ((sd.bind (·.broadcasting)).getD true)

/-- `ssid_data.get("authMode")`. -/
def ssidAuthMode (sd : Option SsidData) : Option String := sd.bind (·.authMode)

/-- `ssid_data.get("dot11w", {})`. -/
def ssidDot11w (sd : Option SsidData) : Dot11w := (sd.bind (·.dot11w)).getD {}

/-- `ssid_data.get("availabilityTags", [])`. -/
def ssidAvailabilityTags (sd : Option SsidData) : List String :=
  (sd.bind (·.availabilityTags)).getD []

/-- `ssid_data.get("availableOnAllAps", True)`. -/
def ssidAvailableOnAllAps (sd : Option SsidData) : Bool :=
  ((sd.bind (·.availableOnAllAps)).getD true)

/-- `"number" in ssid_data` plus its value. -/
def ssidNumber (sd : Option SsidData) : Option ℤ := sd.bind (·.number)

/-- `ssid_data["name"]` when `ssid_data and "name" in ssid_data`. -/
def ssidName (sd : Option SsidData) : Option String := sd.bind (·.name)

/-- `issue_desc.lower() if issue_desc else ""` as character data
(lines 383-384, 489-490, 562-565). -/
def descLowerOf (desc : Option String) : List Char :=
  match desc with
  | none => []
  | some s => lowerData s

/-- Python `term in dl` for one lowercase term over lowered character data. -/
def termIn (t : String) (dl : List Char) : Prop := t.data <:+: dl

instance (t : String) (dl : List Char) : Decidable (termIn t dl) := by
  unfold termIn; exact inferInstance

/-- Python `any(term in dl for term in terms)`. -/
def anyTermIn (terms : List String) (dl : List Char) : Prop :=
  ∃ t ∈ terms, t.data <:+: dl

instance (terms : List String) (dl : List Char) : Decidable (anyTermIn terms dl) := by
  unfold anyTermIn; exact inferInstance

/-- Truthiness of the optional free-text description (`if issue_description:`). -/
def descTruthy : Option String → Bool
  | none => false
  | some s => decide (s ≠ "")

/-! ## `_check_ssid_issues` (lines 346-475) -/

/-- The client-compatibility terms of line 392-394. -/
def clientCompatTerms : List String :=
  ["can\x27t connect", "cannot connect", "unable to connect",
   "compatibility", "older device", "legacy device"]

/-- `WifiTroubleshooter._check_ssid_issues` (lines 346-475).  Four of its
branches construct `WifiIssue(..., details={...})`; `WifiIssue.__init__`
(lines 46-54) has no `details` parameter, so those calls raise `TypeError`,
which escapes this helper (it has no try/except).  The branches are embedded
as `.error .typeError` at the exact spots where the constructor call occurs. -/
def checkSsidIssues (sd : Option SsidData) (desc : Option String) :
    Except PyErr (List WifiIssue) :=
  if ssidEnabled sd = false then
    .ok [{ issue_type := "configuration", issue_subtype := "ssid_disabled",
           severity := 90,
           description := "The SSID is disabled in the network configuration",
           affected_components := ["ssid"] }]
  else
    let broadcastIssues : List WifiIssue :=
      if ssidEnabled sd = true ∧ ssidBroadcasting sd = false then
        [{ issue_type := "connectivity", issue_subtype := "ssid_not_broadcasting",
           severity := 80,
           description := "The SSID is enabled but not broadcasting",
           affected_components := ["ssid", "access_points"] }]
      else []
    let dl := descLowerOf desc
    let pmfRequired := ((ssidDot11w sd).required.getD false)
    let clientIssuesMentioned := anyTermIn clientCompatTerms dl
    let openEnhanced := ssidAuthMode sd = some "open-enhanced"
    -- line 400: `WifiIssue(..., issue_subtype="pmf_required_compatibility", severity=75, ..., details={...})` raises TypeError
    if pmfRequired = true ∧ clientIssuesMentioned then .error .typeError
    -- line 415-429: `open_enhanced_pmf_config` issue also passes `details=` (dead guard: subsumed by the previous test)
    else if openEnhanced ∧ clientIssuesMentioned ∧ pmfRequired = true then .error .typeError
    -- line 435-446: `restricted_ap_availability` issue passes `details=`
    else if ssidAvailabilityTags sd ≠ [] ∧ ssidAvailableOnAllAps sd = false then .error .typeError
    -- line 452-463: `wpa3_only_compatibility` issue passes `details=`
    else if (ssidAuthMode sd = some "wpa3" ∨ ssidAuthMode sd = some "wpa3-enterprise") ∧
        clientIssuesMentioned then .error .typeError
    else
      let openIssues : List WifiIssue :=
        if ssidAuthMode sd = some "open" ∧ termIn "open" dl then
          [{ issue_type := "security", issue_subtype := "open_network_issues",
             severity := 60,
             description := "Open network (not Open-Enhanced) may be causing connection issues with some client devices",
             affected_components := ["ssid", "clients"] }]
        else []
      .ok (broadcastIssues ++ openIssues)

/-! ## `_check_client_issues` (lines 477-543) -/

/-- `WifiTroubleshooter._check_client_issues` (lines 477-543). -/
def checkClientIssues (cd : Option ClientData) (desc : Option String) :
    List WifiIssue :=
  let dl := descLowerOf desc
  let statusIssues : List WifiIssue :=
    if cd.bind (·.status) = some "failed" then
      let reason := (cd.bind (·.failureReason)).getD "unknown"
      if reason = "auth_failure" then
        [{ issue_type := "connectivity", issue_subtype := "authentication_failure",
           severity := 85,
           description := "Client failed to authenticate to the network",
           affected_components := ["client", "ssid"] }]
      else if reason = "dhcp_failure" then
        [{ issue_type := "connectivity", issue_subtype := "dhcp_failure",
           severity := 75,
           description := "Client failed to obtain an IP address via DHCP",
           affected_components := ["client", "dhcp"] }]
      else
        [{ issue_type := "connectivity", issue_subtype := "connection_failure",
           severity := 70,
           description := "Client connection failed with reason: " ++ reason,
           affected_components := ["client", "ssid"] }]
    else []
  let signalIssues : List WifiIssue :=
    match cd.bind (·.signal) with
    | some s =>
      if s < -70 then
        [{ issue_type := "performance", issue_subtype := "low_signal_strength",
           severity := 60,
           description := "Client has poor signal strength: " ++ toString s ++ " dBm",
           affected_components := ["client", "access_points"] }]
      else []
    | none => []
  let compatIssues : List WifiIssue :=
    if (termIn "mac" dl ∧ termIn "windows" dl) ∨ termIn "multiple devices" dl then
      [{ issue_type := "compatibility", issue_subtype := "cross_platform_issues",
         severity := 65,
         description := "Issue affects multiple device types, suggesting SSID configuration incompatibility",
         affected_components := ["ssid", "clients"] }]
    else []
  statusIssues ++ signalIssues ++ compatIssues

/-! ## `_analyze_issue_description` (lines 545-662) -/

/-- The regex character class `[A-Za-z0-9_-]`. -/
def isSsidChar (c : Char) : Bool := c.isAlphanum || c = '_' || c = '-'

/-- `re.search(r"connect to ([A-Za-z0-9_-]+)", dl)`: find the leftmost
position where the literal `"connect to "` is followed by at least one class
character; the captured group is the maximal (greedy) run of class
characters. -/
def findConnectTo : List Char → Option (List Char)
  | [] => none
  | c :: rest =>
    if "connect to ".data <+: (c :: rest) then
      let name := ((c :: rest).drop 11).takeWhile isSsidChar
      if name ≠ [] then some name else findConnectTo rest
    else findConnectTo rest

/-- The client-indicator terms of lines 584-585. -/
def clientIndicatorTerms : List String :=
  ["client", "device", "phone", "laptop", "computer", "user",
   "iphone", "android", "mac", "windows", "ios", "specific"]

/-- The issues collected by `_analyze_issue_description` (lines 577-652)
before the multi-device severity boost, over the lowered description. -/
def analyzeTextIssues (dl : List Char) : List WifiIssue :=
  let connectivityIssues : List WifiIssue :=
    if anyTermIn ["can\x27t connect", "cannot connect", "unable to connect",
        "unable to join"] dl then
      let hasClientIndicator := anyTermIn clientIndicatorTerms dl
      if termIn "password" dl ∨ termIn "credentials" dl then
        [{ issue_type := "connectivity", issue_subtype := "authentication_failure",
           severity := 80,
           description := if hasClientIndicator then
               "Specific clients are experiencing authentication failures when connecting"
             else "Clients are unable to connect due to possible authentication issues",
           affected_components := ["clients", "ssid"] }]
      else if termIn "see the network" dl ∨ termIn "find the network" dl then
        [{ issue_type := "connectivity", issue_subtype := "ssid_not_visible",
           severity := 80,
           description := if hasClientIndicator then
               "Specific clients cannot see or find the wireless network"
             else "Clients cannot see or find the wireless network",
           affected_components := ["clients", "ssid"] }]
      else if termIn "immediately" dl ∧ termIn "error" dl then
        [{ issue_type := "connectivity", issue_subtype := "immediate_connection_failure",
           severity := 85,
           description := if hasClientIndicator then
               "Specific clients immediately receive an error when trying to connect"
             else "Clients immediately receive an error when trying to connect",
           affected_components := ["clients", "ssid"] }]
      else if hasClientIndicator then
        [{ issue_type := "connectivity",
           issue_subtype := "client_specific_connection_failure",
           severity := 82,
           description := "Specific clients are unable to connect while others may be connecting successfully",
           affected_components := ["clients", "ssid"] }]
      else
        [{ issue_type := "connectivity", issue_subtype := "connection_failure",
           severity := 80,
           description := "Clients are unable to connect to the wireless network",
           affected_components := ["clients", "ssid"] }]
    else if anyTermIn ["slow", "performance", "dropping", "intermittent"] dl then
      [{ issue_type := "performance", issue_subtype := "poor_performance",
         severity := 60,
         description := "Network performance issues affecting client experience",
         affected_components := ["clients", "access_points", "network"] }]
    else []
  let ssidIssues : List WifiIssue :=
    match findConnectTo dl with
    | some name =>
      [{ issue_type := "connectivity", issue_subtype := "ssid_specific_issue",
         severity := 75,
         description := "Issue specifically affects the \x27" ++ String.mk name ++ "\x27 SSID",
         affected_components := ["ssid"] }]
    | none => []
  let macIssues : List WifiIssue :=
    if termIn "mac" dl then
      [{ issue_type := "compatibility", issue_subtype := "mac_specific_issue",
         severity := 50,
         description := "Issue may be specific to Mac devices",
         affected_components := ["clients"] }]
    else []
  let winIssues : List WifiIssue :=
    if termIn "windows" dl then
      [{ issue_type := "compatibility", issue_subtype := "windows_specific_issue",
         severity := 50,
         description := "Issue may be specific to Windows devices",
         affected_components := ["clients"] }]
    else []
  connectivityIssues ++ ssidIssues ++ macIssues ++ winIssues

/-- `WifiTroubleshooter._analyze_issue_description` (lines 545-662): collect
the keyword issues, then apply the multi-device severity boost (lines
654-660).  The `extracted_context` dict it also returns is initialized at
lines 568-575 and never written afterwards, so only the issue list is
embedded. -/
def analyzeIssueDescription (desc : Option String) : List WifiIssue :=
  let dl := descLowerOf desc
  let issues := analyzeTextIssues dl
  if termIn "multiple devices" dl ∨
      (termIn "both" dl ∧ termIn "mac" dl ∧ termIn "windows" dl) then
    issues.map fun i =>
      { i with
        severity := if i.severity < 90 then i.severity + 10 else i.severity,
        description := i.description ++ " (affects multiple device types)" }
  else issues

/-! ## `_check_ap_configurations` (lines 934-1064)

The whole body is wrapped in `try/except Exception` (line 1061) which logs and
falls through to `return issues`, so a `TypeError` raised by a
`WifiIssue(..., details=...)` call aborts the remaining checks and returns the
issues collected so far. -/

/-- `WifiTroubleshooter._check_ap_configurations` (lines 934-1064). -/
def checkApConfigurations (env : ApiEnv) (sd : Option SsidData) : List WifiIssue :=
  match env.devices with
  | .error _ => []
  | .ok aps =>
    let wirelessAps := aps.filter fun ap => (ap.model.getD "").startsWith "MR"
    if wirelessAps = [] then
      [{ issue_type := "configuration", issue_subtype := "no_wireless_aps",
         severity := 90,
         description := "No wireless access points detected in the network",
         affected_components := ["access_points", "network"] }]
    else
      let offline := wirelessAps.filter fun ap => ap.status ≠ some "online"
      -- line 977-984: the `offline_access_points` issue is constructed with a
      -- `details=` kwarg, raising TypeError before anything was appended.
      if offline ≠ [] then []
      else
        let tagsRequired := ssidAvailabilityTags sd
        let tagSectionRaises : Bool :=
          if sd ≠ none ∧ tagsRequired ≠ [] ∧ ssidAvailableOnAllAps sd = false then
            let apsWithTags := wirelessAps.filter fun ap =>
              tagsRequired.any fun t => decide (t ∈ ap.tags.getD [])
            let missingTagAps := wirelessAps.filter fun ap =>
              ! tagsRequired.any fun t => decide (t ∈ ap.tags.getD [])
            -- lines 1006-1029: both `no_aps_with_required_tags` and
            -- `some_aps_missing_required_tags` pass `details=` → TypeError.
            decide (apsWithTags.length = 0) ||
              (decide (missingTagAps ≠ []) && decide (apsWithTags.length < wirelessAps.length))
          else false
        if tagSectionRaises then []
        else
          -- lines 1031-1059: radio status of one sample AP, in its own
          -- try/except, so an API failure only skips this section.
          match env.wirelessStatusRadios with
          | .error _ => []
          | .ok radios =>
            (radios.map fun r =>
              (if r.status ≠ some "normal" then
                [{ issue_type := "performance", issue_subtype := "radio_status_issue",
                   severity := 70,
                   description := "AP radio (" ++ r.band.getD "unknown" ++ ") status is " ++
                     r.status.getD "abnormal",
                   affected_components := ["access_points", "radio"] }]
              else []) ++
              (match r.channelUtilization with
               | some u =>
                 if u ≠ 0 ∧ u > 70 then
                   [{ issue_type := "performance",
                      issue_subtype := "high_channel_utilization",
                      severity := 65,
                      description := "High channel utilization (" ++ toString u ++
                        "%) on " ++ r.band.getD "unknown" ++ " radio",
                      affected_components := ["access_points", "radio", "channel"] }]
                 else []
               | none => [])).flatten

/-! ## `_check_connected_clients` (lines 1066-1190)

Also fully wrapped in `try/except Exception` (line 1187); the failed-connection
analysis has its own inner `try/except` (line 1143). -/

/-- `WifiTroubleshooter._check_connected_clients` (lines 1066-1190). -/
def checkConnectedClients (env : ApiEnv) (sd : Option SsidData) : List WifiIssue :=
  match env.clients with
  | .error _ => []
  | .ok clients =>
    let wirelessClients := clients.filter fun c => c.ssid ≠ none
    if wirelessClients = [] ∧ sd ≠ none then
      -- The `no_connected_clients` issue (line 1097, no `details=`) is
      -- appended; every sub-issue of the failed-connection analysis
      -- (lines 1114-1142) passes `details=` and raises TypeError, which the
      -- inner except swallows, so nothing further is appended.
      [{ issue_type := "connectivity", issue_subtype := "no_connected_clients",
         severity := 80,
         description := "No clients are connected to the \x27" ++
           ((ssidName sd).getD "Unknown SSID") ++ "\x27 SSID",
         affected_components := ["ssid", "clients"] }]
    else if wirelessClients ≠ [] then
      let poorSignal := wirelessClients.filter fun c => decide ((c.signal.getD 0) < -70)
      -- line 1151-1158: `poor_signal_strength` passes `details=` → TypeError →
      -- outer except → return with nothing appended.
      if poorSignal ≠ [] then []
      else
        let legacy := wirelessClients.filter fun c =>
          decide (c.protocol = some "802.11b" ∨ c.protocol = some "802.11g" ∨
            c.protocol = some "802.11a")
        -- line 1163-1170: `legacy_clients` passes `details=` → TypeError.
        if legacy ≠ [] then []
        else
          match ssidName sd with
          | some nm =>
            if wirelessClients.filter (fun c => c.ssid = some nm) = [] then
              [{ issue_type := "connectivity", issue_subtype := "no_clients_on_ssid",
                 severity := 75,
                 description := "No clients are connected to the \x27" ++ nm ++
                   "\x27 SSID specifically",
                 affected_components := ["ssid", "clients"] }]
            else []
          | none => []
    else []

/-! ## `_validate_with_api` (lines 1192-1269) and the validation stage
(lines 260-292 of `troubleshoot`) -/

/-- The dict returned by `_validate_with_api`. -/
structure ValidationOutcome where
  validated : Bool
  details : ValidationDetails
deriving DecidableEq

/-- `WifiTroubleshooter._validate_with_api` (lines 1192-1269).  Every API
failure is caught (outer except line 1266, inner excepts lines 1253, 1263) and
reported as `validated: false` with empty details. -/
def validateWithApi (issue : WifiIssue) (sd : Option SsidData) (env : ApiEnv) :
    ValidationOutcome :=
  if issue.issue_subtype = "ssid_disabled" ∨ issue.issue_subtype = "ssid_not_broadcasting" then
    match sd, ssidNumber sd with
    | some _, some _ =>
      match env.ssidFetch with
      | .ok det => ⟨true, { ssidEnabled := some det.enabled, ssidVisible := some (!det.hidden) }⟩
      | .error _ => ⟨false, {}⟩
    | _, _ => ⟨false, {}⟩
  else if issue.issue_subtype = "authentication_failure" then
    match sd, ssidNumber sd with
    | some _, some _ =>
      match env.ssidFetch with
      | .ok det =>
        ⟨true, { authType := some det.authMode,
                 radiusConfigured := if det.hasRadiusServers then some true else none }⟩
      | .error _ => ⟨false, {}⟩
    | _, _ => ⟨false, {}⟩
  else if termIn "performance" issue.issue_type.data then
    match env.devices with
    | .ok aps =>
      let wirelessAps := aps.filter fun ap => (ap.model.getD "").startsWith "MR"
      if wirelessAps ≠ [] then
        match env.wirelessStatusRadios with
        | .ok radios => ⟨true, { apStatus := some radios }⟩
        | .error _ => ⟨false, {}⟩
      else ⟨false, {}⟩
    | .error _ => ⟨false, {}⟩
  else if issue.issue_subtype = "client_specific_connection_failure" then
    match env.failedConnections with
    | .ok l => ⟨true, { failedConnections := some l }⟩
    | .error _ => ⟨false, {}⟩
  else ⟨false, {}⟩

/-- The per-issue severity adjustment of the validation loop
(`troubleshoot`, lines 265-288). -/
def adjustIssue (env : ApiEnv) (sd : Option SsidData) (issue : WifiIssue) : WifiIssue :=
  let v := validateWithApi issue sd env
  if v.validated then
    let i1 := { issue with validation_details := v.details }
    let i2 :=
      match v.details.ssidEnabled with
      | some en =>
        if issue.issue_subtype = "ssid_disabled" ∧ en = true then
          { i1 with severity := i1.severity - 30 }
        else i1
      | none => i1
    match v.details.failedConnections with
    | some l =>
      if l ≠ [] then
        { i2 with severity := i2.severity + 10,
                  description := i2.description ++ " (Confirmed: " ++
                    toString l.length ++ " failed connection attempts)" }
      else i2
    | none => i2
  else issue

/-- The validation stage of `troubleshoot` (lines 260-292): adjust every issue,
then keep only those with positive severity. -/
def validationStage (env : ApiEnv) (sd : Option SsidData)
    (issues : List WifiIssue) : List WifiIssue :=
  (issues.map (adjustIssue env sd)).filter fun i => decide (0 < i.severity)

/-! ## `_get_recommendations` (lines 664-932) -/

/-- The filter patterns of lines 880-882 / 915-917: language suggesting
disabling or removing Open-Enhanced. -/
def disablePatterns : List String :=
  ["disable open-enhanced", "turn off open-enhanced",
   "disable open enhanced", "turn off open enhanced",
   "removing open-enhanced", "removing open enhanced"]

/-- The mention patterns of line 921. -/
def mentionPatterns : List String := ["open-enhanced", "open enhanced"]

/-- A recommendation string matches the Open-Enhanced-disable filter. -/
def suggestsDisablingOE (s : String) : Prop :=
  ∃ p ∈ disablePatterns, p.data <:+: lowerData s

instance (s : String) : Decidable (suggestsDisablingOE s) := by
  unfold suggestsDisablingOE; exact inferInstance

/-- A recommendation string mentions Open-Enhanced. -/
def mentionsOE (s : String) : Prop :=
  ∃ p ∈ mentionPatterns, p.data <:+: lowerData s

instance (s : String) : Decidable (mentionsOE s) := by
  unfold mentionsOE; exact inferInstance

/-- The annotation appended at line 923. -/
def oeNote : String := " (Note: Open-Enhanced should always remain enabled)"

/-- Line 923: annotate a retained recommendation that mentions Open-Enhanced. -/
def annotateOE (r : String) : String := r ++ oeNote

/-- The positive statement appended at line 930 when any recommendation was
filtered out. -/
def reaffirmRec : String :=
  "Maintain Open-Enhanced configuration as enabled - this is a critical feature that should always remain active"

/-- The safe replacement of a filtered knowledge-base answer (line 885). -/
def modifiedAnswer : String :=
  "Ensure that Open-Enhanced is enabled on the wireless network. This is a critical feature that should always remain enabled."

/-- The `CRITICAL PROTECTION` loop of lines 912-926: drop matching strings,
annotate retained strings that mention Open-Enhanced, keep the rest. -/
def safeFilterList : List String → List String
  | [] => []
  | r :: rest =>
    if suggestsDisablingOE r then safeFilterList rest
    else if mentionsOE r then annotateOE r :: safeFilterList rest
    else r :: safeFilterList rest

/-- Lines 912-930: the safety filter plus the reaffirming statement appended
when the filter dropped at least one entry. -/
def safeRecommendations (unique : List String) : List String :=
  let safe := safeFilterList unique
  if safe.length < unique.length then safe ++ [reaffirmRec] else safe

/-- `is_client_specific = "specific client" in description.lower()` with the
empty-description fallback (lines 744-745 etc.). -/
def isClientSpecific (issue : WifiIssue) : Prop :=
  "specific client".data <:+: lowerData issue.description

instance (issue : WifiIssue) : Decidable (isClientSpecific issue) := by
  unfold isClientSpecific; exact inferInstance

/-- The general guidance of the no-issue branch (lines 683-694). -/
def generalRecommendations : List String :=
  ["No specific issues were identified. Consider checking the following:",
   "- Verify that the SSID is properly configured and enabled",
   "- Check that all access points are online and broadcasting the SSID",
   "- Ensure client devices have the correct security settings and credentials"]

/-- The rule-layer recommendations chosen from the primary issue's subtype
(lines 736-860). -/
def ruleRecs (primary : WifiIssue) (openEnhanced : Bool) : List String :=
  if primary.issue_subtype = "ssid_disabled" then
    ["Enable the SSID in the Meraki dashboard"]
  else if primary.issue_subtype = "ssid_not_broadcasting" ∨
      primary.issue_subtype = "ssid_not_visible" then
    if isClientSpecific primary then
      ["Verify that the affected clients are within range of at least one access point",
       "Check if the affected clients have the correct band capabilities (2.4GHz/5GHz/6GHz) for this SSID",
       "Verify that client WiFi radios are enabled and not in airplane mode",
       "Examine client WiFi scan logs to see what networks are visible to them"]
    else
      ["Verify that the SSID is configured to broadcast",
       "Check that access points are online and properly configured",
       "Verify that the SSID is configured on all expected access points"]
  else if primary.issue_subtype = "authentication_failure" ∨
      primary.issue_subtype = "client_specific_connection_failure" then
    if isClientSpecific primary then
      ["Verify that the affected clients have the correct credentials and are using the proper authentication method",
       "Check if the affected clients have updated WiFi drivers and operating systems",
       "Verify that the affected clients support the security protocols used by the SSID (e.g., WPA3, 802.1X)",
       "Examine client device logs for WiFi-related errors during connection attempts"]
    else
      ["Verify that clients are using the correct password and authentication method",
       "Ensure the SSID security settings are compatible with client devices",
       "Check for RADIUS server issues if using enterprise authentication"]
  else if primary.issue_subtype = "dhcp_failure" then
    ["Verify that DHCP server is functioning properly",
     "Check that the DHCP scope is not exhausted",
     "Ensure that there are no IP conflicts on the network"]
  else if primary.issue_subtype = "open_network_issues" then
    ["First verify that access points in the client\x27s location are properly tagged for this SSID"] ++
    (if openEnhanced then
      ["For client compatibility issues, consider changing PMF setting to \x27optional\x27 while maintaining \x27open-enhanced\x27 authentication"]
    else
      ["Check if the client device has any security policies that block connections to public networks"]) ++
    ["Verify that the client\x27s MAC address is not blocked by any firewall or access control rules"]
  else if primary.issue_subtype = "immediate_connection_failure" then
    if isClientSpecific primary then
      ["Check the affected client\x27s ability to connect to other WiFi networks",
       "Verify the affected client is not blocked by MAC filtering or firewall rules",
       "Try resetting the WiFi network adapter on the affected device(s)",
       "Examine client device logs for detailed error messages during connection attempts",
       "Verify client device supports the WiFi standards used by this SSID (e.g., 802.11ac/ax)"]
    else
      ["Verify the SSID broadcast is enabled and access points are online",
       "Check for MAC address filtering or other access control settings",
       "Ensure client devices support the SSID security type and WiFi standards"]
  else []

/-- Lines 877-888: the knowledge-base answer is appended as a recommendation,
after the Open-Enhanced pre-filter which replaces a matching answer with the
safe guidance.  `none` models a failed query, a missing `answer` key, or a
falsy answer. -/
def kbRecs (answer : Option String) : List String :=
  match answer with
  | none => []
  | some a => if suggestsDisablingOE a then [modifiedAnswer] else [a]

/-- The knowledge-base environment of one invocation: whether initialization
succeeds, the natural-language answer (if any), and the opaque references
collected from topic lookups (external data merged as-is; embedded as
strings since no claim inspects them). -/
structure KbEnv where
  initOk : Bool := true
  answer : Option String := none
  refs : List String := []
deriving DecidableEq

/-- The deduplicated candidate recommendation list of lines 736-909 (rule-layer
strings for the primary issue, then the processed knowledge-base answer, then
the exact-string dedup loop). -/
def recommendationCandidates (issues : List WifiIssue) (sd : Option SsidData)
    (kb : KbEnv) : List String :=
  match issues with
  | [] => []
  | i :: is =>
    pyDedup []
      (ruleRecs (pyMaxBySeverity i is) (decide (ssidAuthMode sd = some "open-enhanced")) ++
       kbRecs kb.answer)

/-- The recommendation list returned by `_get_recommendations`
(lines 664-932): general guidance when no issue was found (early return,
lines 681-705, unfiltered), otherwise the safety-filtered deduplicated
candidates. -/
def getRecommendations (issues : List WifiIssue) (sd : Option SsidData)
    (kb : KbEnv) : List String :=
  match issues with
  | [] => generalRecommendations
  | i :: is => safeRecommendations (recommendationCandidates (i :: is) sd kb)

/-! ## `_calculate_confidence` (lines 1271-1305) and `troubleshoot`
(lines 181-319) -/

/-- Python `max(issue.severity for issue in issues)` (line 1290); `0` is never
used since the caller guards the empty case. -/
def maxSeverity : List WifiIssue → ℤ
  | [] => 0
  | i :: is => is.foldl (fun a j => max a j.severity) i.severity

/-- Lines 1293-1299: fixed weights for available data.  `ssid_data` and
`client_data` were replaced by `{}` when falsy (line 216-217), so presence
means a non-empty dict, i.e. `some`. -/
def dataCompleteness (sd : Option SsidData) (cd : Option ClientData)
    (desc : Option String) : ℤ :=
  (if sd ≠ none then 30 else 0) + (if cd ≠ none then 30 else 0) +
    (if descTruthy desc = true then 20 else 0)

/-- `WifiTroubleshooter._calculate_confidence` (lines 1271-1305). -/
def calculateConfidence (issues : List WifiIssue) (sd : Option SsidData)
    (cd : Option ClientData) (desc : Option String) : ℤ :=
  if issues = [] then 50
  else
    min 100
      (pyInt ((maxSeverity issues : ℚ) * (6/10) +
        (dataCompleteness sd cd desc : ℚ) * (4/10)))

/-- Steps 3-7 of `troubleshoot` (lines 227-292) after the SSID check
succeeded: client checks, AP/connected-client checks when an API client was
supplied, the free-text fallback when nothing was found, and the validation
stage. -/
def troubleshootIssues (ssidIssues : List WifiIssue) (cd : Option ClientData)
    (desc : Option String) (sd : Option SsidData) (api : Option ApiEnv) :
    List WifiIssue :=
  let issues0 := ssidIssues ++ checkClientIssues cd desc
  let issues1 :=
    match api with
    | some env => issues0 ++ checkApConfigurations env sd ++
        checkConnectedClients env sd
    | none => issues0
  let issues2 :=
    if issues1 = [] ∧ descTruthy desc = true then analyzeIssueDescription desc
    else issues1
  match api with
  | some env => validationStage env sd issues2
  | none => issues2

/-- `WifiTroubleshooter.troubleshoot` (lines 181-319).  The knowledge-base and
Meraki-API collaborators are passed in as environments; `api = none` means no
`meraki_client` was supplied, skipping the AP/connected-client checks and the
validation stage.  Only `_check_ssid_issues` can raise (its TypeError paths);
the generic `except Exception` wraps that into `WifiTroubleshootingError`. -/
def troubleshoot (_networkId : String) (ssidData : Option SsidData)
    (clientData : Option ClientData) (issueDescription : Option String)
    (api : Option ApiEnv) (kb : KbEnv) :
    Except WifiTroubleshootingErr TroubleshootingResult :=
  if kb.initOk = false then .error .kbInitFailed
  else
    match checkSsidIssues ssidData issueDescription with
    | .error e => .error (.unexpected e)
    | .ok ssidIssues =>
      let issues := troubleshootIssues ssidIssues clientData issueDescription ssidData api
      .ok (mkTroubleshootingResult issues
            (calculateConfidence issues ssidData clientData issueDescription)
            (getRecommendations issues ssidData kb)
            kb.refs)

/-! ## Concrete inputs used by the claim theorems, witnesses and
counterexamples -/

/-- A sample detected issue used to witness the Open-Enhanced safety claim. -/
def c1issue : WifiIssue :=
  { issue_type := "connectivity", issue_subtype := "connection_failure",
    severity := 80,
    description := "Clients are unable to connect to the wireless network",
    affected_components := ["clients", "ssid"] }

/-- The concrete sample sets used to witness claim C5. -/
def c5empty : SpectrumData :=
  { access_point_serial := "Q_E", band := .band24, channel := 6,
    channel_width := .w20 }

def c5seven : SpectrumData :=
  { access_point_serial := "Q_S", band := .band24, channel := 6,
    channel_width := .w20,
    data_points := [⟨2412, -90, 10, 0⟩, ⟨2412, -88, 10, 0⟩, ⟨2412, -85, 10, 0⟩,
                    ⟨2412, -80, 10, 0⟩, ⟨2412, -70, 10, 0⟩, ⟨2412, -60, 10, 0⟩,
                    ⟨2412, -50, 10, 0⟩] }

/-- The concrete 5 GHz sample set (radar interference) used to witness C6. -/
def c6data : SpectrumData :=
  { access_point_serial := "Q_R", band := .band5, channel := 60,
    channel_width := .w40,
    data_points := [⟨5280, -90, 5, 0⟩, ⟨5300, -60, 5, 0⟩, ⟨5300, -60, 5, 0⟩,
                    ⟨5300, -60, 5, 0⟩, ⟨5300, -60, 5, 0⟩] }

/-- The concrete 2.4 GHz sample set used for claim C7: six microwave-window
points above `noise_floor + 10` (one of which fixes the noise floor at −75),
with fractional average excess, so `impact = min(100, int(14.5 * 5)) = 72`. -/
def c7data : SpectrumData :=
  { access_point_serial := "Q_M", band := .band24, channel := 6,
    channel_width := .w20,
    data_points := [⟨2450, -75, 5, 0⟩, ⟨2450, -121/2, 5, 0⟩, ⟨2451, -121/2, 5, 0⟩,
                    ⟨2452, -121/2, 5, 0⟩, ⟨2453, -121/2, 5, 0⟩, ⟨2454, -121/2, 5, 0⟩,
                    ⟨2455, -121/2, 5, 0⟩] }

/-- The same sample set with one matched point removed: exactly five points
match the microwave rule, which must NOT trigger it. -/
def c7five : SpectrumData :=
  { access_point_serial := "Q_M5", band := .band24, channel := 6,
    channel_width := .w20,
    data_points := [⟨2450, -75, 5, 0⟩, ⟨2450, -121/2, 5, 0⟩, ⟨2451, -121/2, 5, 0⟩,
                    ⟨2452, -121/2, 5, 0⟩, ⟨2453, -121/2, 5, 0⟩, ⟨2454, -121/2, 5, 0⟩] }

/-- The concrete 3-item batch used for claim C8: items 1 and 3 analyze
successfully, item 2 raises during analysis. -/
def c8batch : List SpectrumInput :=
  [.wellFormed { access_point_serial := "AP_1", band := .band6, channel := 1,
                 channel_width := .w20 },
   .malformed "AP_2" "unsupported operand type",
   .wellFormed { access_point_serial := "AP_3", band := .band6, channel := 5,
                 channel_width := .w20 }]

/-- An all-failing batch used for claim C8. -/
def c8allFail : List SpectrumInput :=
  [.malformed "AP_4" "bad frame", .malformed "AP_5" "bad frame"]

/-- Concrete validation inputs for claim C9: a stale `ssid_disabled` issue
whose re-fetch shows the SSID enabled, ... -/
def c9issue : WifiIssue :=
  { issue_type := "configuration", issue_subtype := "ssid_disabled",
    severity := 90,
    description := "The SSID is disabled in the network configuration",
    affected_components := ["ssid"] }

/-- ... the SSID data carrying the `number` key needed for the re-fetch, ... -/
def c9sd : SsidData := { number := some 1 }

/-- ... an API environment whose SSID re-fetch reports `enabled: true`, ... -/
def c9env : ApiEnv := { ssidFetch := .ok { enabled := true } }

/-- ... a client-specific connection-failure issue, ... -/
def c9issueCsf : WifiIssue :=
  { issue_type := "connectivity",
    issue_subtype := "client_specific_connection_failure",
    severity := 82,
    description := "Specific clients are unable to connect while others may be connecting successfully",
    affected_components := ["clients", "ssid"] }

/-- ... and an API environment reporting two failed connections. -/
def c9envFc : ApiEnv :=
  { failedConnections := .ok [{ failureReason := some "auth" },
                              { failureReason := some "dhcp" }] }

/-- The free-text description of end-to-end scenario B (claim C2). -/
def c2desc : String := "Can\x27t connect to OfficeWiFi from my MacBook"

/-- The result of the scenario-B invocation: no SSID data, no client data, no
device accessor, only the free-text description. -/
def c2res : TroubleshootingResult :=
  match troubleshoot "net" none none (some c2desc) none {} with
  | .ok r => r
  | .error _ => mkTroubleshootingResult [] 0 [] []

/-- The SSID snapshot of claim C3: enabled, with Protected Management Frames
required. -/
def c3ssid : SsidData :=
  { enabled := some true, dot11w := some { enabled := some true, required := some true } }

/-- The claim-C3 issue description, containing client-compatibility language
("older device", "compatibility"). -/
def c3desc : String := "Older device clients report compatibility problems"

/-- The SSID snapshot of the claim-C4 witness: a disabled SSID, producing the
single `ssid_disabled` issue (severity 90) with data completeness 30. -/
def c4sd : SsidData := { enabled := some false }

/-- The result of the claim-C4 witness invocation: SSID data only, no client
data, no description, no API client. -/
def c4res : TroubleshootingResult :=
  match troubleshoot "net" (some c4sd) none none none {} with
  | .ok r => r
  | .error _ => mkTroubleshootingResult [] 0 [] []

/- Batteries marks the `Rat` arithmetic operations `@[irreducible]`.  The
concrete witnesses below evaluate the embedded analyzer on explicit rational
sample data, which needs those operations to reduce; restore the default
reducibility locally for the rest of this file. -/
set_option allowUnsafeReducibility true

attribute [local semireducible] Rat.add Rat.sub Rat.mul Rat.inv Rat.div

/-! ## Helper lemmas: substrings of concatenations -/

theorem lowerData_append (a b : String) :
    lowerData (a ++ b) = lowerData a ++ lowerData b := by
  simp [lowerData, String.data_append]

theorem infix_append_cases {α : Type _} {p a b : List α} (h : p <:+: a ++ b) :
    p <:+: a ∨ p <:+: b ∨ ∃ n, 0 < n ∧ n < p.length ∧ p.drop n <+: b := by
  obtain ⟨s, t, hst⟩ := h
  rw [List.append_assoc] at hst
  rcases List.append_eq_append_iff.mp hst with ⟨a', ha, hpt⟩ | ⟨c', _, hb⟩
  · rcases List.append_eq_append_iff.mp hpt with ⟨x, hx, _⟩ | ⟨y, hy, hbb⟩
    · left
      exact ⟨s, x, by rw [ha, hx, List.append_assoc]⟩
    · by_cases hy0 : y = []
      · subst hy0
        rw [List.append_nil] at hy
        left
        exact ⟨s, [], by rw [List.append_nil, ha, hy]⟩
      by_cases ha0 : a' = []
      · subst ha0
        rw [List.nil_append] at hy
        subst hy
        right; left
        exact ⟨[], t, by rw [List.nil_append, hbb]⟩
      · right; right
        refine ⟨a'.length, List.length_pos.mpr ha0, ?_, ?_⟩
        · rw [hy, List.length_append]
          have := List.length_pos.mpr hy0
          omega
        · rw [hy, List.drop_left]
          exact ⟨t, hbb.symm⟩
  · right; left
    exact ⟨c', t, by rw [hb, List.append_assoc]⟩

theorem not_infix_append {α : Type _} {p a b : List α} (h1 : ¬ p <:+: a)
    (h2 : ¬ p <:+: b) (h3 : ∀ n, 0 < n → n < p.length → ¬ p.drop n <+: b) :
    ¬ p <:+: (a ++ b) := by
  intro h
  rcases infix_append_cases h with h' | h' | ⟨n, hn1, hn2, hn3⟩
  exacts [h1 h', h2 h', h3 n hn1 hn2 hn3]

/-- No disable pattern occurs in the annotation note, nor can a pattern span
the boundary between an annotated recommendation and the note: no nonempty
proper suffix of a pattern is a prefix of the note. -/
theorem oeNote_span_safe : ∀ p ∈ disablePatterns,
    ¬ p.data <:+: lowerData oeNote ∧
    ∀ n < p.data.length, 0 < n → ¬ p.data.drop n <+: lowerData oeNote := by
  decide

theorem suggests_annotate {r : String} (h : ¬ suggestsDisablingOE r) :
    ¬ suggestsDisablingOE (annotateOE r) := by
  rintro ⟨p, hp, hinf⟩
  rw [annotateOE, lowerData_append] at hinf
  refine not_infix_append (fun hr => h ⟨p, hp, hr⟩) (oeNote_span_safe p hp).1
    (fun n h0 hlen => (oeNote_span_safe p hp).2 n hlen h0) hinf

/-! ## Helper lemmas: the safety filter -/

theorem reaffirm_safe : ¬ suggestsDisablingOE reaffirmRec := by decide

theorem general_safe : ∀ s ∈ generalRecommendations, ¬ suggestsDisablingOE s := by
  decide

theorem safeFilterList_safe : ∀ {l : List String} {s : String},
    s ∈ safeFilterList l → ¬ suggestsDisablingOE s := by
  intro l
  induction l with
  | nil => intro s h; cases h
  | cons x xs ih =>
    intro s h
    rw [safeFilterList] at h
    split at h
    · exact ih h
    next hs =>
      split at h
      · rcases List.mem_cons.mp h with rfl | h'
        · exact suggests_annotate hs
        · exact ih h'
      · rcases List.mem_cons.mp h with rfl | h'
        · exact hs
        · exact ih h'

theorem safeFilterList_length_le (l : List String) :
    (safeFilterList l).length ≤ l.length := by
  induction l with
  | nil => simp [safeFilterList]
  | cons x xs ih =>
    rw [safeFilterList]
    split
    · simpa using Nat.le_succ_of_le ih
    · split <;> simpa using ih

theorem safeFilterList_length_lt {r : String} {l : List String} (hmem : r ∈ l)
    (hs : suggestsDisablingOE r) : (safeFilterList l).length < l.length := by
  induction l with
  | nil => cases hmem
  | cons x xs ih =>
    rw [safeFilterList]
    rcases List.mem_cons.mp hmem with rfl | h'
    · rw [if_pos hs]
      simpa using Nat.lt_succ_of_le (safeFilterList_length_le xs)
    · split
      · simpa using Nat.lt_succ_of_le (Nat.le_of_lt (ih h'))
      · split <;> simpa using ih h'

theorem annotate_mem_safeFilterList {r : String} {l : List String} (hmem : r ∈ l)
    (hns : ¬ suggestsDisablingOE r) (hm : mentionsOE r) :
    annotateOE r ∈ safeFilterList l := by
  induction l with
  | nil => cases hmem
  | cons x xs ih =>
    rw [safeFilterList]
    rcases List.mem_cons.mp hmem with rfl | h'
    · rw [if_neg hns, if_pos hm]
      exact List.mem_cons_self _ _
    · split
      · exact ih h'
      · split <;> exact List.mem_cons_of_mem _ (ih h')

theorem safeRecommendations_safe {l : List String} {s : String}
    (h : s ∈ safeRecommendations l) : ¬ suggestsDisablingOE s := by
  rw [safeRecommendations] at h
  split at h
  · rcases List.mem_append.mp h with h' | h'
    · exact safeFilterList_safe h'
    · rw [List.mem_singleton] at h'
      subst h'
      exact reaffirm_safe
  · exact safeFilterList_safe h

theorem annotate_mem_safeRecommendations {r : String} {l : List String}
    (hmem : r ∈ l) (hns : ¬ suggestsDisablingOE r) (hm : mentionsOE r) :
    annotateOE r ∈ safeRecommendations l := by
  rw [safeRecommendations]
  split
  · exact List.mem_append_left _ (annotate_mem_safeFilterList hmem hns hm)
  · exact annotate_mem_safeFilterList hmem hns hm

theorem reaffirm_mem_safeRecommendations {l : List String}
    (h : ∃ r ∈ l, suggestsDisablingOE r) : reaffirmRec ∈ safeRecommendations l := by
  obtain ⟨r, hr, hs⟩ := h
  rw [safeRecommendations, if_pos (safeFilterList_length_lt hr hs)]
  exact List.mem_append_right _ (List.mem_singleton_self _)

theorem getRecommendations_safe {issues : List WifiIssue} {sd : Option SsidData}
    {kb : KbEnv} {s : String} (h : s ∈ getRecommendations issues sd kb) :
    ¬ suggestsDisablingOE s := by
  cases issues with
  | nil => exact general_safe s h
  | cons i is => exact safeRecommendations_safe h

/-! ## Helper lemmas: dedup and the knowledge-base answer -/

theorem mem_pyDedup_of {x : String} : ∀ {seen l : List String}, x ∈ l →
    x ∉ seen → x ∈ pyDedup seen l := by
  intro seen l
  induction l generalizing seen with
  | nil => intro h; cases h
  | cons y ys ih =>
    intro hx hns
    rw [pyDedup]
    rcases List.mem_cons.mp hx with rfl | h'
    · rw [if_neg hns]
      exact List.mem_cons_self _ _
    · split
      · exact ih h' hns
      · by_cases hxy : x = y
        · subst hxy
          exact List.mem_cons_self _ _
        · refine List.mem_cons_of_mem _ (ih h' ?_)
          simp only [List.mem_append, List.mem_singleton]
          rintro (h | h)
          exacts [hns h, hxy h]

theorem modifiedAnswer_mentions : mentionsOE modifiedAnswer := by decide

theorem modifiedAnswer_not_suggests : ¬ suggestsDisablingOE modifiedAnswer := by decide

theorem modifiedAnswer_mem_candidates {issues : List WifiIssue}
    {sd : Option SsidData} {kb : KbEnv} {a : String} (hne : issues ≠ [])
    (ha : kb.answer = some a) (hs : suggestsDisablingOE a) :
    modifiedAnswer ∈ recommendationCandidates issues sd kb := by
  cases issues with
  | nil => exact absurd rfl hne
  | cons i is =>
    rw [recommendationCandidates]
    refine mem_pyDedup_of ?_ (List.not_mem_nil _)
    rw [List.mem_append]
    right
    rw [ha]
    simp [kbRecs, hs]

/-! ## Helper lemmas: troubleshoot inversion -/

theorem troubleshoot_ok_inv {netId : String} {sd : Option SsidData}
    {cd : Option ClientData} {desc : Option String} {api : Option ApiEnv}
    {kb : KbEnv} {res : TroubleshootingResult}
    (h : troubleshoot netId sd cd desc api kb = .ok res) :
    ∃ ssidIssues, checkSsidIssues sd desc = .ok ssidIssues ∧
      res = mkTroubleshootingResult (troubleshootIssues ssidIssues cd desc sd api)
        (calculateConfidence (troubleshootIssues ssidIssues cd desc sd api) sd cd desc)
        (getRecommendations (troubleshootIssues ssidIssues cd desc sd api) sd kb)
        kb.refs := by
  unfold troubleshoot at h
  split at h
  · cases h
  · split at h
    · cases h
    next ssidIssues heq =>
      refine ⟨ssidIssues, heq, ?_⟩
      injection h with h'
      exact h'.symm

/-- Claim C1: for every troubleshoot invocation the returned recommendation
list contains no string matching the Open-Enhanced-disable filter patterns;
in the candidate-filtering stage every candidate that matches is excluded,
every retained candidate that mentions Open-Enhanced appears annotated with
the note, a filtered candidate forces the reaffirming statement into the
output, and a knowledge-base answer matching the patterns is replaced by the
safe guidance, which appears annotated in the output. -/
theorem c1_open_enhanced_safety :
    (∀ (netId : String) (sd : Option SsidData) (cd : Option ClientData)
        (desc : Option String) (api : Option ApiEnv) (kb : KbEnv)
        (res : TroubleshootingResult),
        troubleshoot netId sd cd desc api kb = .ok res →
        ∀ s ∈ res.recommendations, ¬ suggestsDisablingOE s) ∧
    (∀ (issues : List WifiIssue) (sd : Option SsidData) (kb : KbEnv) (r : String),
        r ∈ recommendationCandidates issues sd kb → ¬ suggestsDisablingOE r →
        mentionsOE r → annotateOE r ∈ getRecommendations issues sd kb) ∧
    (∀ (issues : List WifiIssue) (sd : Option SsidData) (kb : KbEnv),
        (∃ r ∈ recommendationCandidates issues sd kb, suggestsDisablingOE r) →
        reaffirmRec ∈ getRecommendations issues sd kb) ∧
    (∀ recs : List String, (∃ r ∈ recs, suggestsDisablingOE r) →
        reaffirmRec ∈ safeRecommendations recs) ∧
    (∀ (issues : List WifiIssue) (sd : Option SsidData) (kb : KbEnv) (a : String),
        issues ≠ [] → kb.answer = some a → suggestsDisablingOE a →
        annotateOE modifiedAnswer ∈ getRecommendations issues sd kb) := by
  refine ⟨?_, ?_, ?_, ?_, ?_⟩
  · intro netId sd cd desc api kb res h s hs
    obtain ⟨si, -, rfl⟩ := troubleshoot_ok_inv h
    exact getRecommendations_safe hs
  · intro issues sd kb r hr hns hm
    cases issues with
    | nil => simp [recommendationCandidates] at hr
    | cons i is => exact annotate_mem_safeRecommendations hr hns hm
  · intro issues sd kb h
    obtain ⟨r, hr, hs⟩ := h
    cases issues with
    | nil => simp [recommendationCandidates] at hr
    | cons i is => exact reaffirm_mem_safeRecommendations ⟨r, hr, hs⟩
  · intro recs h
    exact reaffirm_mem_safeRecommendations h
  · intro issues sd kb a hne ha hs
    have hmem := @modifiedAnswer_mem_candidates _ sd _ _ hne ha hs
    cases issues with
    | nil => exact absurd rfl hne
    | cons i is =>
      exact annotate_mem_safeRecommendations hmem modifiedAnswer_not_suggests
        modifiedAnswer_mentions

theorem c1_open_enhanced_safety_witness :
    (∃ r ∈ ["You should disable Open-Enhanced to fix this"], suggestsDisablingOE r) ∧
    reaffirmRec ∈ safeRecommendations ["You should disable Open-Enhanced to fix this"] ∧
    annotateOE modifiedAnswer ∈ getRecommendations [c1issue] none
      { initOk := true, answer := some "You should disable Open-Enhanced to fix this",
        refs := [] } := by
  refine ⟨⟨_, List.mem_singleton_self _, by decide⟩, ?_, ?_⟩
  · exact c1_open_enhanced_safety.2.2.2.1 _ ⟨_, List.mem_singleton_self _, by decide⟩
  · exact c1_open_enhanced_safety.2.2.2.2 [c1issue] none _ _
      (List.cons_ne_nil _ _) rfl (by decide)

/-! ## Helper lemmas: Python `max(..., key=severity)` -/

theorem pyMaxBySeverity_spec (i : WifiIssue) (l : List WifiIssue) :
    ∃ pre post, i :: l = pre ++ (pyMaxBySeverity i l) :: post ∧
      (∀ j ∈ pre, j.severity < (pyMaxBySeverity i l).severity) ∧
      (∀ j ∈ i :: l, j.severity ≤ (pyMaxBySeverity i l).severity) := by
  induction l generalizing i with
  | nil =>
    refine ⟨[], [], rfl, by simp, ?_⟩
    intro j hj
    rw [List.mem_singleton.mp hj]
    exact le_refl _
  | cons x xs ih =>
    have hstep : pyMaxBySeverity i (x :: xs) =
        pyMaxBySeverity (if i.severity < x.severity then x else i) xs := rfl
    by_cases hx : i.severity < x.severity
    · obtain ⟨pre, post, heq, hlt, hle⟩ := ih x
      rw [hstep, if_pos hx]
      refine ⟨i :: pre, post, by rw [List.cons_append, ← heq], ?_, ?_⟩
      · intro j hj
        rcases List.mem_cons.mp hj with rfl | hj'
        · exact lt_of_lt_of_le hx (hle x (List.mem_cons_self _ _))
        · exact hlt j hj'
      · intro j hj
        rcases List.mem_cons.mp hj with rfl | hj'
        · exact le_of_lt (lt_of_lt_of_le hx (hle x (List.mem_cons_self _ _)))
        · exact hle j hj'
    · obtain ⟨pre, post, heq, hlt, hle⟩ := ih i
      rw [hstep, if_neg hx]
      have hxle : x.severity ≤ i.severity := not_lt.mp hx
      set m := pyMaxBySeverity i xs with hm
      have hile : i.severity ≤ m.severity := hle i (List.mem_cons_self _ _)
      cases pre with
      | nil =>
        simp only [List.nil_append] at heq
        have h1 : i = m := (List.cons.injEq _ _ _ _).mp heq |>.1
        refine ⟨[], x :: xs, by rw [List.nil_append, ← h1], by simp, ?_⟩
        intro j hj
        rcases List.mem_cons.mp hj with rfl | hj'
        · exact hile
        rcases List.mem_cons.mp hj' with rfl | hj''
        · exact le_trans hxle hile
        · exact hle j (List.mem_cons_of_mem _ hj'')
      | cons p ps =>
        rw [List.cons_append] at heq
        have h1 : i = p := (List.cons.injEq _ _ _ _).mp heq |>.1
        have h2 : xs = ps ++ m :: post :=
          (List.cons.injEq _ _ _ _).mp heq |>.2
        have hilt : i.severity < m.severity := by
          have := hlt p (List.mem_cons_self _ _)
          rw [← h1] at this
          exact this
        refine ⟨i :: x :: ps, post, ?_, ?_, ?_⟩
        · rw [List.cons_append, List.cons_append, ← h2]
        · intro j hj
          rcases List.mem_cons.mp hj with rfl | hj'
          · exact hilt
          rcases List.mem_cons.mp hj' with rfl | hj''
          · exact lt_of_le_of_lt hxle hilt
          · exact hlt j (List.mem_cons_of_mem _ hj'')
        · intro j hj
          rcases List.mem_cons.mp hj with rfl | hj'
          · exact hile
          rcases List.mem_cons.mp hj' with rfl | hj''
          · exact le_trans hxle hile
          · exact hle j (List.mem_cons_of_mem _ hj'')

theorem pyMaxBySeverity_severity (i : WifiIssue) (l : List WifiIssue) :
    (pyMaxBySeverity i l).severity = maxSeverity (i :: l) := by
  rw [maxSeverity]
  induction l generalizing i with
  | nil => rfl
  | cons x xs ih =>
    have hstep : pyMaxBySeverity i (x :: xs) =
        pyMaxBySeverity (if i.severity < x.severity then x else i) xs := rfl
    rw [hstep, List.foldl_cons, ih]
    congr 1
    split
    · exact (max_eq_right (le_of_lt (by assumption))).symm
    · exact (max_eq_left (not_lt.mp (by assumption))).symm

/-- Claim C10: a `TroubleshootingResult` built from an empty issue list has no
primary issue, and its dict form maps `primary_issue` to null while keeping
the constructor's confidence, recommendations and knowledge references; for a
non-empty list the primary issue is the first issue attaining the maximum
severity. -/
theorem c10_primary_issue :
    (∀ (conf : ℤ) (recs refs : List String),
      (mkTroubleshootingResult [] conf recs refs).primary_issue = none ∧
      (mkTroubleshootingResult [] conf recs refs).toDict.primary_issue = none ∧
      (mkTroubleshootingResult [] conf recs refs).toDict.confidence = conf ∧
      (mkTroubleshootingResult [] conf recs refs).toDict.recommendations = recs ∧
      (mkTroubleshootingResult [] conf recs refs).toDict.knowledge_references = refs) ∧
    (∀ (issues : List WifiIssue) (conf : ℤ) (recs refs : List String),
      issues ≠ [] →
      ∃ p pre post,
        (mkTroubleshootingResult issues conf recs refs).primary_issue = some p ∧
        issues = pre ++ p :: post ∧
        (∀ j ∈ pre, j.severity < p.severity) ∧
        (∀ j ∈ issues, j.severity ≤ p.severity)) := by
  refine ⟨fun conf recs refs => ⟨rfl, rfl, rfl, rfl, rfl⟩, ?_⟩
  intro issues conf recs refs hne
  cases issues with
  | nil => exact absurd rfl hne
  | cons i is =>
    obtain ⟨pre, post, heq, hlt, hle⟩ := pyMaxBySeverity_spec i is
    exact ⟨pyMaxBySeverity i is, pre, post, rfl, heq, hlt, hle⟩

theorem c10_primary_issue_witness :
    (([⟨"a", "a", 70, "d1", [], {}⟩, ⟨"b", "b", 70, "d2", [], {}⟩] :
        List WifiIssue) ≠ []) ∧
    (∃ p pre post,
      (mkTroubleshootingResult
        [⟨"a", "a", 70, "d1", [], {}⟩, ⟨"b", "b", 70, "d2", [], {}⟩] 5
        ["r"] ["k"]).primary_issue = some p ∧
      ([⟨"a", "a", 70, "d1", [], {}⟩, ⟨"b", "b", 70, "d2", [], {}⟩] :
        List WifiIssue) = pre ++ p :: post ∧
      (∀ j ∈ pre, j.severity < p.severity) ∧
      (∀ j ∈ ([⟨"a", "a", 70, "d1", [], {}⟩, ⟨"b", "b", 70, "d2", [], {}⟩] :
        List WifiIssue), j.severity ≤ p.severity)) :=
  ⟨List.cons_ne_nil _ _,
   c10_primary_issue.2 [⟨"a", "a", 70, "d1", [], {}⟩, ⟨"b", "b", 70, "d2", [], {}⟩]
     5 ["r"] ["k"] (List.cons_ne_nil _ _)⟩

/-! ## Helper lemmas: spectrum arithmetic -/

theorem pyInt_eq_floor {q : ℚ} (h : 0 ≤ q) : pyInt q = ⌊q⌋ := by
  rw [pyInt, if_neg (not_lt.mpr h)]

theorem pyInt_nonneg {q : ℚ} (h : 0 ≤ q) : 0 ≤ pyInt q := by
  rw [pyInt_eq_floor h]
  exact Int.floor_nonneg.mpr h

theorem mul_length_lt_sum {c : ℚ} : ∀ {l : List ℚ}, l ≠ [] →
    (∀ x ∈ l, c < x) → c * l.length < l.sum := by
  intro l
  induction l with
  | nil => intro h; exact absurd rfl h
  | cons x xs ih =>
    intro _ h
    rw [List.sum_cons, List.length_cons]
    have h2 := h x (List.mem_cons_self _ _)
    have hc : c * ((xs.length : ℚ) + 1) = c * xs.length + c := by ring
    push_cast
    rw [hc]
    by_cases hxs : xs = []
    · subst hxs
      simp only [List.length_nil, List.sum_nil]
      push_cast
      linarith
    · have h1 := ih hxs (fun y hy => h y (List.mem_cons_of_mem _ hy))
      linarith

theorem lt_avg_of_forall_lt {l : List ℚ} {c : ℚ} (hne : l ≠ [])
    (h : ∀ x ∈ l, c < x) : c < l.sum / l.length := by
  have hlen : (0:ℚ) < l.length := by
    have := List.length_pos.mpr hne
    exact_mod_cast this
  rw [lt_div_iff₀ hlen]
  exact mul_length_lt_sum hne h

theorem interference_empty {d : SpectrumData} (h : d.data_points = []) (nf : ℚ) :
    identifyInterference d nf = [] := by
  cases hb : d.band <;>
    simp [identifyInterference, hb, checkFor24GhzInterference,
      microwaveAffectedPoints, checkFor5GhzInterference, h]

/-- Claim C5: with no samples the noise floor defaults to −95 dBm and channel
quality stays at the 100 baseline; with N samples the noise floor is the entry
at index `max(0, floor(0.1 * N) - 1)` of the ascending-sorted powers. -/
theorem c5_noise_floor :
    ∀ d : SpectrumData,
      (d.data_points = [] →
        (analyzeSpectrumData d).noise_floor = -95 ∧
        (analyzeSpectrumData d).channel_quality = 100) ∧
      (d.data_points ≠ [] →
        (analyzeSpectrumData d).noise_floor =
          (List.insertionSort (· ≤ ·) (d.data_points.map (·.power))).getD
            (max 0 (⌊(d.data_points.length : ℚ) / 10⌋ - 1)).toNat 0) := by
  intro d
  constructor
  · intro h
    have hnf : calculateNoiseFloor d = -95 := by rw [calculateNoiseFloor, if_pos h]
    refine ⟨hnf, ?_⟩
    show evaluateChannelQuality d (calculateNoiseFloor d)
      (identifyInterference d (calculateNoiseFloor d)) = 100
    rw [interference_empty h, hnf]
    simp only [evaluateChannelQuality, SpectrumData.getAverageUtilization,
      if_pos h, List.foldl_nil]
    norm_num
  · intro h
    show calculateNoiseFloor d = _
    have hlen : (List.insertionSort (· ≤ ·) (d.data_points.map (·.power))).length =
        d.data_points.length := by
      rw [List.length_insertionSort, List.length_map]
    have hq : ((List.insertionSort (· ≤ ·) (d.data_points.map (·.power))).length : ℚ) *
        (1/10) = (d.data_points.length : ℚ) / 10 := by
      rw [hlen]; ring
    have hidx : pyInt (((List.insertionSort (· ≤ ·)
        (d.data_points.map (·.power))).length : ℚ) * (1/10)) =
        ⌊(d.data_points.length : ℚ) / 10⌋ := by
      rw [hq, pyInt_eq_floor (by positivity)]
    rw [calculateNoiseFloor, if_neg h]
    dsimp only
    rw [hidx]

theorem c5_noise_floor_witness :
    (c5empty.data_points = [] ∧
      (analyzeSpectrumData c5empty).noise_floor = -95 ∧
      (analyzeSpectrumData c5empty).channel_quality = 100) ∧
    (c5seven.data_points ≠ [] ∧
      (analyzeSpectrumData c5seven).noise_floor =
        (List.insertionSort (· ≤ ·) (c5seven.data_points.map (·.power))).getD
          (max 0 (⌊(c5seven.data_points.length : ℚ) / 10⌋ - 1)).toNat 0) :=
  ⟨⟨rfl, (c5_noise_floor c5empty).1 rfl⟩,
   ⟨by decide, (c5_noise_floor c5seven).2 (by decide)⟩⟩

/-! ## Claim C6 -/

theorem interference_bounds {d : SpectrumData} {nf : ℚ} {src : InterferenceSource}
    (h : src ∈ identifyInterference d nf) :
    0 ≤ src.impact_level ∧ src.impact_level ≤ 100 ∧
    0 ≤ src.confidence ∧ src.confidence ≤ 100 := by
  have bound : ∀ (pts : List SpectrumDataPoint) (margin k : ℚ), 0 < margin → 0 < k →
      pts ≠ [] → (∀ dp ∈ pts, nf + margin < dp.power) →
      0 ≤ min 100 (pyInt (((pts.map (·.power)).sum / pts.length - nf) * k)) ∧
      min 100 (pyInt (((pts.map (·.power)).sum / pts.length - nf) * k)) ≤ 100 := by
    intro pts margin k hm hk hne hp
    have havg : nf + margin < (pts.map (·.power)).sum / (pts.map (·.power)).length := by
      refine lt_avg_of_forall_lt (by simpa using hne) ?_
      intro x hx
      obtain ⟨dp, hdp, rfl⟩ := List.mem_map.mp hx
      exact hp dp hdp
    rw [List.length_map] at havg
    have hx : 0 ≤ ((pts.map (·.power)).sum / pts.length - nf) * k := by
      have : (0:ℚ) ≤ (pts.map (·.power)).sum / pts.length - nf := by linarith
      positivity
    exact ⟨le_min (by norm_num) (pyInt_nonneg hx), min_le_left _ _⟩
  unfold identifyInterference at h
  split at h
  · simp only [checkFor24GhzInterference, List.mem_append] at h
    rcases h with h | h
    · split at h
      next hc =>
        rw [List.mem_singleton] at h
        subst h
        refine ⟨?_, ?_, by norm_num, by norm_num⟩ <;>
        · have := bound _ 10 5 (by norm_num) (by norm_num) hc.1 ?_
          · simp only []
            first
            | exact this.1
            | exact this.2
          · intro dp hdp
            have := (of_decide_eq_true (List.mem_filter.mp hdp).2).2.2
            linarith
      · cases h
    · split at h
      next hc =>
        rw [List.mem_singleton] at h
        subst h
        refine ⟨?_, ?_, by norm_num, by norm_num⟩ <;>
        · have := bound _ 5 3 (by norm_num) (by norm_num) hc.1 ?_
          · simp only []
            first
            | exact this.1
            | exact this.2
          · intro dp hdp
            have := (of_decide_eq_true (List.mem_filter.mp hdp).2).2.2
            linarith
      · cases h
  · simp only [checkFor5GhzInterference] at h
    split at h
    next hc =>
      rw [List.mem_singleton] at h
      subst h
      refine ⟨?_, ?_, by norm_num, by norm_num⟩ <;>
      · have := bound _ 15 4 (by norm_num) (by norm_num) hc.1 ?_
        · simp only []
          first
          | exact this.1
          | exact this.2
        · intro dp hdp
          have := (of_decide_eq_true (List.mem_filter.mp hdp).2).2.2
          linarith
    · cases h
  · cases h

/-- Claim C6: for every analyzed sample set the channel quality lies in
[0,100], and every emitted interference source has impact level and confidence
in [0,100]. -/
theorem c6_quality_and_impact_bounds :
    ∀ d : SpectrumData,
      (0 ≤ (analyzeSpectrumData d).channel_quality ∧
        (analyzeSpectrumData d).channel_quality ≤ 100) ∧
      ∀ src ∈ (analyzeSpectrumData d).interference_sources,
        0 ≤ src.impact_level ∧ src.impact_level ≤ 100 ∧
        0 ≤ src.confidence ∧ src.confidence ≤ 100 := by
  intro d
  constructor
  · show 0 ≤ evaluateChannelQuality d _ _ ∧ evaluateChannelQuality d _ _ ≤ 100
    unfold evaluateChannelQuality
    constructor
    · exact le_max_left _ _
    · exact max_le (by norm_num) (min_le_left _ _)
  · intro src h
    exact interference_bounds h

theorem c6_quality_and_impact_bounds_witness :
    ((⟨"radar", (5250, 5350), -60, 100, 80,
        "Possible radar/DFS interference detected"⟩ : InterferenceSource) ∈
      (analyzeSpectrumData c6data).interference_sources) ∧
    (0 ≤ (100 : ℤ) ∧ (100 : ℤ) ≤ 100 ∧ 0 ≤ (80 : ℤ) ∧ (80 : ℤ) ≤ 100) :=
  ⟨by decide,
   (c6_quality_and_impact_bounds c6data).2
     ⟨"radar", (5250, 5350), -60, 100, 80,
      "Possible radar/DFS interference detected"⟩ (by decide)⟩

/-! ## Claim C7 -/

/-- Claim C7, corrected: for a 2.4 GHz sample set a microwave interference
source is emitted iff more than 5 points match the microwave rule against the
computed noise floor (so exactly 5 matching points emit nothing), and an
emitted microwave source has confidence 75 and impact level
`min(100, int((avg_power - noise_floor) * 5))` — the source applies Python
`int()` truncation, which the original claim's formula omits. -/
theorem c7_microwave_rule (d : SpectrumData) (hband : d.band = .band24) :
    ((∃ src ∈ identifyInterference d (calculateNoiseFloor d),
        src.type = "microwave") ↔
      5 < (microwaveAffectedPoints d (calculateNoiseFloor d)).length) ∧
    ((microwaveAffectedPoints d (calculateNoiseFloor d)).length = 5 →
      ¬ ∃ src ∈ identifyInterference d (calculateNoiseFloor d),
          src.type = "microwave") ∧
    (∀ src ∈ identifyInterference d (calculateNoiseFloor d),
      src.type = "microwave" →
      src.confidence = 75 ∧
      src.impact_level = min 100 (pyInt
        ((((microwaveAffectedPoints d (calculateNoiseFloor d)).map (·.power)).sum /
          (microwaveAffectedPoints d (calculateNoiseFloor d)).length -
          calculateNoiseFloor d) * 5))) := by
  have hid : identifyInterference d (calculateNoiseFloor d) =
      checkFor24GhzInterference d (calculateNoiseFloor d) := by
    unfold identifyInterference
    rw [hband]
  refine ⟨⟨?_, ?_⟩, ?_, ?_⟩
  · rintro ⟨src, hmem, htype⟩
    rw [hid] at hmem
    simp only [checkFor24GhzInterference, List.mem_append] at hmem
    rcases hmem with hmem | hmem
    · split at hmem
      next hc => exact hc.2
      · cases hmem
    · split at hmem
      · rw [List.mem_singleton] at hmem
        subst hmem
        simp at htype
      · cases hmem
  · intro h5
    have hne : microwaveAffectedPoints d (calculateNoiseFloor d) ≠ [] := by
      intro hnil
      rw [hnil] at h5
      exact absurd h5 (by decide)
    rw [hid]
    simp only [checkFor24GhzInterference]
    rw [if_pos ⟨hne, h5⟩]
    exact ⟨_, List.mem_append_left _ (List.mem_singleton_self _), rfl⟩
  · intro h5 hex
    obtain ⟨src, hmem, htype⟩ := hex
    rw [hid] at hmem
    simp only [checkFor24GhzInterference, List.mem_append] at hmem
    rcases hmem with hmem | hmem
    · split at hmem
      next hc => omega
      · cases hmem
    · split at hmem
      · rw [List.mem_singleton] at hmem
        subst hmem
        simp at htype
      · cases hmem
  · intro src hmem htype
    rw [hid] at hmem
    simp only [checkFor24GhzInterference, List.mem_append] at hmem
    rcases hmem with hmem | hmem
    · split at hmem
      · rw [List.mem_singleton] at hmem
        subst hmem
        exact ⟨rfl, rfl⟩
      · cases hmem
    · split at hmem
      · rw [List.mem_singleton] at hmem
        subst hmem
        simp at htype
      · cases hmem

/-- Claim C7, counterexample to the frozen wording: on `c7data` the emitted
microwave source has `impact_level = 72`, but the claim's formula
`min(100, (avg_power - noise_floor) * 5)` evaluates to `72.5`. -/
theorem c7_microwave_counterexample :
    ∃ src ∈ identifyInterference c7data (calculateNoiseFloor c7data),
      src.type = "microwave" ∧ src.impact_level = 72 ∧
      ¬ ((src.impact_level : ℚ) =
        min 100 ((src.avg_power - calculateNoiseFloor c7data) * 5)) := by
  decide

theorem c7_microwave_rule_witness :
    (c7data.band = .band24 ∧
      5 < (microwaveAffectedPoints c7data (calculateNoiseFloor c7data)).length ∧
      ∃ src ∈ identifyInterference c7data (calculateNoiseFloor c7data),
        src.type = "microwave") ∧
    (c7five.band = .band24 ∧
      (microwaveAffectedPoints c7five (calculateNoiseFloor c7five)).length = 5 ∧
      ¬ ∃ src ∈ identifyInterference c7five (calculateNoiseFloor c7five),
          src.type = "microwave") :=
  ⟨⟨rfl, by decide, (c7_microwave_rule c7data rfl).1.mpr (by decide)⟩,
   ⟨rfl, by decide, (c7_microwave_rule c7five rfl).2.1 (by decide)⟩⟩

/-! ## Helper lemmas: the batch-analysis loop -/

theorem batchGo_snd : ∀ (l : List SpectrumInput) (res : List (String × SpectrumAnalysis))
    (errs : List String), (batchGo l res errs).2 = errs ++ l.filterMap analysisErrMsg := by
  intro l
  induction l with
  | nil => intro res errs; simp [batchGo]
  | cons it rest ih =>
    intro res errs
    rw [batchGo]
    cases h : analyzeSpectrum it with
    | ok a =>
      rw [ih]
      simp [List.filterMap_cons, analysisErrMsg, h]
    | error e =>
      rw [ih]
      simp [List.filterMap_cons, analysisErrMsg, h]

theorem batchGo_fst_allFail : ∀ {l : List SpectrumInput}
    {res : List (String × SpectrumAnalysis)} {errs : List String},
    (∀ it ∈ l, (analyzeSpectrum it).isOk = false) → (batchGo l res errs).1 = res := by
  intro l
  induction l with
  | nil => intro res errs _; rfl
  | cons it rest ih =>
    intro res errs hfail
    have hf := hfail it (List.mem_cons_self _ _)
    rw [batchGo]
    cases he : analyzeSpectrum it with
    | ok a =>
      rw [he] at hf
      cases hf
    | error e =>
      exact ih fun x hx => hfail x (List.mem_cons_of_mem _ hx)

theorem dictInsert_ne_nil (m : List (String × SpectrumAnalysis)) (k : String)
    (v : SpectrumAnalysis) : dictInsert m k v ≠ [] := by
  cases m with
  | nil => simp [dictInsert]
  | cons p rest =>
    rw [dictInsert]
    split <;> simp

theorem batchGo_fst_ne_nil : ∀ {l : List SpectrumInput}
    {res : List (String × SpectrumAnalysis)} {errs : List String},
    res ≠ [] → (batchGo l res errs).1 ≠ [] := by
  intro l
  induction l with
  | nil => intro res errs h; exact h
  | cons it rest ih =>
    intro res errs h
    rw [batchGo]
    cases hr : analyzeSpectrum it with
    | ok a => exact ih (dictInsert_ne_nil _ _ _)
    | error e => exact ih h

theorem batchGo_fst_ne_nil_of_ok : ∀ {l : List SpectrumInput}
    {res : List (String × SpectrumAnalysis)} {errs : List String},
    (∃ it ∈ l, (analyzeSpectrum it).isOk = true) → (batchGo l res errs).1 ≠ [] := by
  intro l
  induction l with
  | nil =>
    intro res errs h
    obtain ⟨it, hmem, -⟩ := h
    cases hmem
  | cons it rest ih =>
    intro res errs h
    rw [batchGo]
    cases hr : analyzeSpectrum it with
    | ok a => exact batchGo_fst_ne_nil (dictInsert_ne_nil _ _ _)
    | error e =>
      obtain ⟨x, hmem, hx⟩ := h
      rcases List.mem_cons.mp hmem with rfl | hmem'
      · rw [hr] at hx
        cases hx
      · exact ih ⟨x, hmem', hx⟩

theorem dictInsert_append {m : List (String × SpectrumAnalysis)} {k : String}
    {v : SpectrumAnalysis} (h : k ∉ m.map Prod.fst) :
    dictInsert m k v = m ++ [(k, v)] := by
  induction m with
  | nil => rfl
  | cons p ps ih =>
    rw [dictInsert]
    simp only [List.map_cons, List.mem_cons] at h
    push_neg at h
    rw [if_neg (fun hh => h.1 hh.symm), ih h.2]
    rfl

theorem batchGo_fst_nodup : ∀ {l : List SpectrumInput}
    {res : List (String × SpectrumAnalysis)} {errs : List String},
    (l.map SpectrumInput.serial).Nodup →
    (∀ k ∈ res.map Prod.fst, k ∉ l.map SpectrumInput.serial) →
    (batchGo l res errs).1 = res ++ l.filterMap analysisOkPair := by
  intro l
  induction l with
  | nil => intro res errs _ _; simp [batchGo]
  | cons it rest ih =>
    intro res errs hnd hdisj
    have hndTail : (rest.map SpectrumInput.serial).Nodup :=
      (List.nodup_cons.mp (by simpa using hnd)).2
    rw [batchGo]
    cases hr : analyzeSpectrum it with
    | ok a =>
      dsimp only
      have hser : it.serial ∉ res.map Prod.fst := by
        intro hk
        exact hdisj _ hk (by simp)
      rw [dictInsert_append hser, ih hndTail ?_]
      · simp [List.filterMap_cons, analysisOkPair, hr]
      · intro k hk
        simp only [List.map_append, List.mem_append, List.map_cons] at hk
        rcases hk with hk | hk
        · intro hmem
          exact hdisj _ hk (by simp [hmem])
        · simp at hk
          subst hk
          exact (List.nodup_cons.mp (by simpa using hnd)).1
    | error e =>
      dsimp only
      rw [ih hndTail ?_]
      · simp [List.filterMap_cons, analysisOkPair, hr]
      · intro k hk hmem
        exact hdisj _ hk (by simp [hmem])

/-- Claim C8: a non-empty batch where every item's analysis fails raises an
`RFAnalysisError` whose details carry all collected sub-errors; a batch with
at least one success returns the successful items only, keyed by access-point
serial (when the serials are distinct), with no exception for the failures. -/
theorem c8_batch_analyze :
    ∀ items : List SpectrumInput, items ≠ [] →
      ((∀ it ∈ items, (analyzeSpectrum it).isOk = false) →
        batchAnalyze items = .error
          ⟨"Batch analysis failed for all " ++ toString items.length ++ " access points",
           items.filterMap analysisErrMsg⟩) ∧
      ((∃ it ∈ items, (analyzeSpectrum it).isOk = true) →
        ∃ m, batchAnalyze items = .ok m ∧
          ((items.map SpectrumInput.serial).Nodup →
            m = items.filterMap analysisOkPair)) := by
  intro items hne
  constructor
  · intro hfail
    have h1 : (batchGo items [] []).1 = [] := batchGo_fst_allFail hfail
    have h2 : (batchGo items [] []).2 = items.filterMap analysisErrMsg :=
      batchGo_snd items [] []
    have h3 : (batchGo items [] []).2 ≠ [] := by
      rw [h2]
      cases items with
      | nil => exact absurd rfl hne
      | cons it rest =>
        have hf := hfail it (List.mem_cons_self _ _)
        cases he : analyzeSpectrum it with
        | ok a =>
          rw [he] at hf
          cases hf
        | error e => simp [List.filterMap_cons, analysisErrMsg, he]
    rw [batchAnalyze]
    rw [if_pos ⟨h3, h1⟩, h2]
  · intro hok
    have h1 : (batchGo items [] []).1 ≠ [] := batchGo_fst_ne_nil_of_ok hok
    refine ⟨(batchGo items [] []).1, ?_, ?_⟩
    · rw [batchAnalyze, if_neg (fun hc => h1 hc.2)]
    · intro hnd
      rw [batchGo_fst_nodup hnd (by simp)]
      rfl

theorem c8_batch_analyze_witness :
    (c8batch ≠ [] ∧ (∃ it ∈ c8batch, (analyzeSpectrum it).isOk = true) ∧
      (∃ m, batchAnalyze c8batch = .ok m ∧
        ((c8batch.map SpectrumInput.serial).Nodup →
          m = c8batch.filterMap analysisOkPair))) ∧
    (c8allFail ≠ [] ∧ (∀ it ∈ c8allFail, (analyzeSpectrum it).isOk = false) ∧
      batchAnalyze c8allFail = .error
        ⟨"Batch analysis failed for all " ++ toString c8allFail.length ++ " access points",
         c8allFail.filterMap analysisErrMsg⟩) :=
  ⟨⟨by decide, by decide,
    (c8_batch_analyze c8batch (by decide)).2 (by decide)⟩,
   ⟨by decide, by decide,
    (c8_batch_analyze c8allFail (by decide)).1 (by decide)⟩⟩

/-! ## Helper lemmas: the API-validation stage -/

theorem validate_ssid_shape (i : WifiIssue) (sd : Option SsidData) (env : ApiEnv)
    (hsub : i.issue_subtype = "ssid_disabled" ∨
      i.issue_subtype = "ssid_not_broadcasting") :
    (validateWithApi i sd env).details.failedConnections = none := by
  unfold validateWithApi
  rw [if_pos hsub]
  cases sd with
  | none => rfl
  | some d =>
    cases hn : ssidNumber (some d) with
    | none => rfl
    | some n =>
      cases hf : env.ssidFetch with
      | ok det => rfl
      | error u => rfl

theorem validate_fc_some {i : WifiIssue} {sd : Option SsidData} {env : ApiEnv}
    {l : List FailedConnection}
    (hfc : (validateWithApi i sd env).details.failedConnections = some l) :
    (validateWithApi i sd env).validated = true ∧
    (validateWithApi i sd env).details.ssidEnabled = none := by
  unfold validateWithApi at hfc ⊢
  by_cases h1 : (i.issue_subtype = "ssid_disabled" ∨
      i.issue_subtype = "ssid_not_broadcasting")
  · rw [if_pos h1] at hfc ⊢
    exfalso
    split at hfc
    · split at hfc
      · exact Option.noConfusion hfc
      · exact Option.noConfusion hfc
    · exact Option.noConfusion hfc
  · rw [if_neg h1] at hfc ⊢
    by_cases h2 : i.issue_subtype = "authentication_failure"
    · rw [if_pos h2] at hfc ⊢
      exfalso
      split at hfc
      · split at hfc
        · exact Option.noConfusion hfc
        · exact Option.noConfusion hfc
      · exact Option.noConfusion hfc
    · rw [if_neg h2] at hfc ⊢
      by_cases h3 : termIn "performance" i.issue_type.data
      · rw [if_pos h3] at hfc ⊢
        exfalso
        iterate 8
          all_goals first
            | exact Option.noConfusion hfc
            | split at hfc
            | dsimp only at hfc
      · rw [if_neg h3] at hfc ⊢
        by_cases h4 : i.issue_subtype = "client_specific_connection_failure"
        · rw [if_pos h4] at hfc ⊢
          split at hfc
          · exact ⟨rfl, rfl⟩
          · exact Option.noConfusion hfc
        · rw [if_neg h4] at hfc
          exact Option.noConfusion hfc

theorem adjust_ssid_disabled (env : ApiEnv) (sd : Option SsidData) (i : WifiIssue)
    (hsub : i.issue_subtype = "ssid_disabled")
    (hval : (validateWithApi i sd env).validated = true)
    (hen : (validateWithApi i sd env).details.ssidEnabled = some true) :
    (adjustIssue env sd i).severity = i.severity - 30 := by
  have hfc : (validateWithApi i sd env).details.failedConnections = none :=
    validate_ssid_shape i sd env (Or.inl hsub)
  unfold adjustIssue
  dsimp only
  rw [if_pos hval, hen, hfc]
  dsimp only
  rw [if_pos ⟨hsub, rfl⟩]

theorem adjust_failed_connections (env : ApiEnv) (sd : Option SsidData)
    (i : WifiIssue) (l : List FailedConnection)
    (hfc : (validateWithApi i sd env).details.failedConnections = some l)
    (hl : l ≠ []) :
    (adjustIssue env sd i).severity = i.severity + 10 ∧
    (adjustIssue env sd i).description = i.description ++ " (Confirmed: " ++
      toString l.length ++ " failed connection attempts)" := by
  obtain ⟨hval, hen⟩ := validate_fc_some hfc
  unfold adjustIssue
  dsimp only
  rw [if_pos hval, hen, hfc]
  dsimp only
  rw [if_pos hl]
  exact ⟨rfl, rfl⟩

theorem mem_validationStage {env : ApiEnv} {sd : Option SsidData}
    {issues : List WifiIssue} {j : WifiIssue} :
    j ∈ validationStage env sd issues ↔
      ∃ i ∈ issues, adjustIssue env sd i = j ∧ 0 < j.severity := by
  simp only [validationStage, List.mem_filter, List.mem_map, decide_eq_true_eq]
  constructor
  · rintro ⟨⟨i, hi, rfl⟩, hpos⟩
    exact ⟨i, hi, rfl, hpos⟩
  · rintro ⟨i, hi, rfl, hpos⟩
    exact ⟨⟨i, hi, rfl⟩, hpos⟩

/-- Claim C9: in the validation stage an issue of subtype `ssid_disabled`
whose re-fetched SSID config shows `enabled = true` loses exactly 30 severity;
an issue whose validation details carry a non-empty failed-connection list
gains exactly 10 severity and the confirmation note with the count; and the
final list keeps exactly the adjusted issues of positive severity. -/
theorem c9_validation_stage :
    ∀ (env : ApiEnv) (sd : Option SsidData) (issues : List WifiIssue),
      (∀ i ∈ issues, i.issue_subtype = "ssid_disabled" →
        (validateWithApi i sd env).validated = true →
        (validateWithApi i sd env).details.ssidEnabled = some true →
        (adjustIssue env sd i).severity = i.severity - 30) ∧
      (∀ i ∈ issues, ∀ l : List FailedConnection,
        (validateWithApi i sd env).details.failedConnections = some l → l ≠ [] →
        (adjustIssue env sd i).severity = i.severity + 10 ∧
        (adjustIssue env sd i).description = i.description ++ " (Confirmed: " ++
          toString l.length ++ " failed connection attempts)") ∧
      (∀ j, j ∈ validationStage env sd issues ↔
        ∃ i ∈ issues, adjustIssue env sd i = j ∧ 0 < j.severity) := by
  intro env sd issues
  refine ⟨?_, ?_, ?_⟩
  · intro i _ hsub hval hen
    exact adjust_ssid_disabled env sd i hsub hval hen
  · intro i _ l hfc hl
    exact adjust_failed_connections env sd i l hfc hl
  · intro j
    exact mem_validationStage

theorem c9_validation_stage_witness :
    (c9issue.issue_subtype = "ssid_disabled" ∧
      (validateWithApi c9issue (some c9sd) c9env).validated = true ∧
      (validateWithApi c9issue (some c9sd) c9env).details.ssidEnabled = some true ∧
      (adjustIssue c9env (some c9sd) c9issue).severity = c9issue.severity - 30) ∧
    ((validateWithApi c9issueCsf none c9envFc).details.failedConnections =
        some [{ failureReason := some "auth" }, { failureReason := some "dhcp" }] ∧
      (adjustIssue c9envFc none c9issueCsf).severity = c9issueCsf.severity + 10 ∧
      (adjustIssue c9envFc none c9issueCsf).description = c9issueCsf.description ++
        " (Confirmed: " ++ toString
          ([{ failureReason := some "auth" },
            { failureReason := some "dhcp" }] : List FailedConnection).length ++
        " failed connection attempts)") :=
  ⟨⟨rfl, by decide, by decide,
    (c9_validation_stage c9env (some c9sd) [c9issue]).1 c9issue
      (List.mem_singleton_self _) rfl (by decide) (by decide)⟩,
   ⟨by decide,
    (c9_validation_stage c9envFc none [c9issueCsf]).2.1 c9issueCsf
      (List.mem_singleton_self _) _ (by decide) (by decide)⟩⟩

/-! ## Claims C2 and C3 -/

/-- Claim C2, counterexample to the frozen wording: the fallback text analysis
of scenario B does not yield only the claimed
`client_specific_connection_failure` and `mac_specific_issue` pair — the
regex `connect to ([A-Za-z0-9_-]+)` also matches "connect to officewifi" and
emits a third, `ssid_specific_issue`, issue. -/
theorem c2_text_analysis_counterexample :
    ¬ ((analyzeIssueDescription (some c2desc)).map (fun i => i.issue_subtype) =
      ["client_specific_connection_failure", "mac_specific_issue"]) := by
  decide

/-- Claim C2, corrected: the scenario-B invocation completes normally, and its
fallback text analysis yields exactly a `client_specific_connection_failure`
connectivity issue of severity 82, an `ssid_specific_issue` of severity 75 for
the extracted name "officewifi", and a `mac_specific_issue` compatibility
issue of severity 50 — with no +10 multi-device boost (Windows is not also
mentioned: the severities stay 82/75/50 and no boost annotation is added). -/
theorem c2_text_analysis :
    troubleshoot "net" none none (some c2desc) none {} = .ok c2res ∧
    c2res.issues = analyzeIssueDescription (some c2desc) ∧
    c2res.issues.map (fun i => (i.issue_type, i.issue_subtype, i.severity)) =
      [("connectivity", "client_specific_connection_failure", 82),
       ("connectivity", "ssid_specific_issue", 75),
       ("compatibility", "mac_specific_issue", 50)] ∧
    c2res.issues.map (fun i => i.description) =
      ["Specific clients are unable to connect while others may be connecting successfully",
       "Issue specifically affects the \x27officewifi\x27 SSID",
       "Issue may be specific to Mac devices"] := by
  refine ⟨by decide, by decide, by decide, by decide⟩

/-- Claim C3 (code bug): on an enabled SSID with `dot11w.required = true` and
a description containing client-compatibility language, `_check_ssid_issues`
does not return the claimed `pmf_required_compatibility` issue of severity 75:
it calls `WifiIssue(..., details={...})` (wifi_troubleshooter.py lines
400-412), but `WifiIssue.__init__` (lines 46-54) accepts no `details` keyword,
so the call raises `TypeError` and the enclosing `troubleshoot` converts it
into a `WifiTroubleshootingError` instead of completing normally. -/
theorem c3_pmf_branch_raises :
    checkSsidIssues (some c3ssid) (some c3desc) = .error .typeError ∧
    troubleshoot "net" (some c3ssid) none (some c3desc) none {} =
      .error (.unexpected .typeError) := by
  refine ⟨by decide, by decide⟩

/-! ## Helper lemmas: reachable severities

Every severity the pipeline can produce is one of the rule constants
(50-95, all congruent to 0 or 2 mod 5), possibly adjusted by the +10 boost or
the validation-stage ±30/+10 deltas, which preserve the residue mod 5. -/

theorem checkSsidIssues_sev {sd : Option SsidData} {desc : Option String}
    {l : List WifiIssue} (h : checkSsidIssues sd desc = .ok l) :
    ∀ i ∈ l, (i.severity % 5 = 0 ∨ i.severity % 5 = 2) ∧ 0 < i.severity := by
  unfold checkSsidIssues at h
  dsimp only at h
  repeat' split at h
  all_goals try exact (Except.noConfusion h)
  all_goals injection h with h'
  all_goals subst h'
  all_goals intro i hi
  all_goals simp only [List.mem_append, List.mem_singleton, List.not_mem_nil,
    or_false, false_or] at hi
  all_goals
    first
      | exact hi.elim
      | (rcases hi with rfl | rfl <;> exact ⟨by norm_num, by norm_num⟩)
      | (rcases hi with rfl
         exact ⟨by norm_num, by norm_num⟩)

theorem checkClientIssues_sev {cd : Option ClientData} {desc : Option String} :
    ∀ i ∈ checkClientIssues cd desc,
      (i.severity % 5 = 0 ∨ i.severity % 5 = 2) ∧ 0 < i.severity := by
  intro i hi
  unfold checkClientIssues at hi
  dsimp only at hi
  repeat' split at hi
  all_goals simp only [List.mem_append, List.mem_singleton, List.not_mem_nil,
    or_false, false_or] at hi
  all_goals
    first
      | exact hi.elim
      | (rcases hi with (rfl | rfl) | rfl <;> exact ⟨by norm_num, by norm_num⟩)
      | (rcases hi with rfl | rfl <;> exact ⟨by norm_num, by norm_num⟩)
      | (rcases hi with rfl
         exact ⟨by norm_num, by norm_num⟩)

theorem analyzeTextIssues_sev {dl : List Char} :
    ∀ i ∈ analyzeTextIssues dl,
      (i.severity % 5 = 0 ∨ i.severity % 5 = 2) ∧ 0 < i.severity := by
  intro i hi
  unfold analyzeTextIssues at hi
  simp only [List.mem_append] at hi
  rcases hi with ((hi | hi) | hi) | hi
  · split at hi
    · split at hi
      · rw [List.mem_singleton] at hi
        subst hi
        exact ⟨by norm_num, by norm_num⟩
      · split at hi
        · rw [List.mem_singleton] at hi
          subst hi
          exact ⟨by norm_num, by norm_num⟩
        · split at hi
          · rw [List.mem_singleton] at hi
            subst hi
            exact ⟨by norm_num, by norm_num⟩
          · split at hi
            · rw [List.mem_singleton] at hi
              subst hi
              exact ⟨by norm_num, by norm_num⟩
            · rw [List.mem_singleton] at hi
              subst hi
              exact ⟨by norm_num, by norm_num⟩
    · split at hi
      · rw [List.mem_singleton] at hi
        subst hi
        exact ⟨by norm_num, by norm_num⟩
      · cases hi
  · split at hi
    · rw [List.mem_singleton] at hi
      subst hi
      exact ⟨by norm_num, by norm_num⟩
    · cases hi
  · split at hi
    · rw [List.mem_singleton] at hi
      subst hi
      exact ⟨by norm_num, by norm_num⟩
    · cases hi
  · split at hi
    · rw [List.mem_singleton] at hi
      subst hi
      exact ⟨by norm_num, by norm_num⟩
    · cases hi

theorem analyzeIssueDescription_sev {desc : Option String} :
    ∀ i ∈ analyzeIssueDescription desc,
      (i.severity % 5 = 0 ∨ i.severity % 5 = 2) ∧ 0 < i.severity := by
  intro i hi
  unfold analyzeIssueDescription at hi
  dsimp only at hi
  split at hi
  · obtain ⟨j, hj, rfl⟩ := List.mem_map.mp hi
    obtain ⟨hmod, hpos⟩ := analyzeTextIssues_sev j hj
    dsimp only
    split <;> constructor <;> omega
  · exact analyzeTextIssues_sev i hi

theorem checkApConfigurations_sev {env : ApiEnv} {sd : Option SsidData} :
    ∀ i ∈ checkApConfigurations env sd,
      (i.severity % 5 = 0 ∨ i.severity % 5 = 2) ∧ 0 < i.severity := by
  intro i hi
  unfold checkApConfigurations at hi
  dsimp only at hi
  repeat' split at hi
  all_goals try exact absurd hi (List.not_mem_nil i)
  all_goals
    first
      | (rw [List.mem_singleton] at hi
         subst hi
         exact ⟨by norm_num, by norm_num⟩)
      | (obtain ⟨sub, hsub, hisub⟩ := List.mem_flatten.mp hi
         obtain ⟨r, -, rfl⟩ := List.mem_map.mp hsub
         rw [List.mem_append] at hisub
         rcases hisub with hr | hr <;>
         · repeat' split at hr
           all_goals first
             | exact absurd hr (List.not_mem_nil i)
             | (rw [List.mem_singleton] at hr
                subst hr
                exact ⟨by norm_num, by norm_num⟩))

theorem checkConnectedClients_sev {env : ApiEnv} {sd : Option SsidData} :
    ∀ i ∈ checkConnectedClients env sd,
      (i.severity % 5 = 0 ∨ i.severity % 5 = 2) ∧ 0 < i.severity := by
  intro i hi
  unfold checkConnectedClients at hi
  dsimp only at hi
  repeat' split at hi
  all_goals
    first
      | exact absurd hi (List.not_mem_nil i)
      | (rw [List.mem_singleton] at hi
         subst hi
         exact ⟨by norm_num, by norm_num⟩)

theorem adjustIssue_severity_cases (env : ApiEnv) (sd : Option SsidData)
    (i : WifiIssue) :
    (adjustIssue env sd i).severity = i.severity ∨
    (adjustIssue env sd i).severity = i.severity - 30 ∨
    (adjustIssue env sd i).severity = i.severity + 10 ∨
    (adjustIssue env sd i).severity = i.severity - 30 + 10 := by
  unfold adjustIssue
  dsimp only
  repeat' split
  all_goals try dsimp only
  all_goals omega

theorem troubleshootIssues_sev {ssidIssues : List WifiIssue}
    {cd : Option ClientData} {desc : Option String} {sd : Option SsidData}
    {api : Option ApiEnv}
    (hssid : ∀ i ∈ ssidIssues,
      (i.severity % 5 = 0 ∨ i.severity % 5 = 2) ∧ 0 < i.severity) :
    ∀ i ∈ troubleshootIssues ssidIssues cd desc sd api,
      (i.severity % 5 = 0 ∨ i.severity % 5 = 2) ∧ 0 < i.severity := by
  intro i hi
  unfold troubleshootIssues at hi
  cases api with
  | none =>
    dsimp only at hi
    split at hi
    · exact analyzeIssueDescription_sev i hi
    · rcases List.mem_append.mp hi with h | h
      · exact hssid i h
      · exact checkClientIssues_sev i h
  | some env =>
    dsimp only at hi
    obtain ⟨j, hj, rfl, hpos⟩ := mem_validationStage.mp hi
    have hj' : (j.severity % 5 = 0 ∨ j.severity % 5 = 2) ∧ 0 < j.severity := by
      split at hj
      · exact analyzeIssueDescription_sev j hj
      · rcases List.mem_append.mp hj with h | h
        · rcases List.mem_append.mp h with h' | h'
          · rcases List.mem_append.mp h' with h'' | h''
            · exact hssid j h''
            · exact checkClientIssues_sev j h''
          · exact checkApConfigurations_sev j h'
        · exact checkConnectedClients_sev j h
    refine ⟨?_, hpos⟩
    rcases adjustIssue_severity_cases env sd j with h | h | h | h <;> rw [h] <;>
      omega

theorem foldlMax_eq_or_mem (a : ℤ) (l : List WifiIssue) :
    l.foldl (fun x j => max x j.severity) a = a ∨
      ∃ j ∈ l, l.foldl (fun x j => max x j.severity) a = j.severity := by
  induction l generalizing a with
  | nil => exact .inl rfl
  | cons k t ih =>
    dsimp only [List.foldl]
    rcases ih (max a k.severity) with h | ⟨j, hj, h⟩
    · rcases le_or_lt k.severity a with hk | hk
      · left
        rw [h, max_eq_left hk]
      · right
        exact ⟨k, List.mem_cons_self k t, by rw [h, max_eq_right hk.le]⟩
    · right
      exact ⟨j, List.mem_cons_of_mem _ hj, h⟩

theorem maxSeverity_mem {l : List WifiIssue} (h : l ≠ []) :
    ∃ j ∈ l, maxSeverity l = j.severity := by
  cases l with
  | nil => exact absurd rfl h
  | cons i is =>
    unfold maxSeverity
    rcases foldlMax_eq_or_mem i.severity is with h2 | ⟨j, hj, h2⟩
    · exact ⟨i, List.mem_cons_self i is, h2⟩
    · exact ⟨j, List.mem_cons_of_mem _ hj, h2⟩

theorem dataCompleteness_facts (sd : Option SsidData) (cd : Option ClientData)
    (desc : Option String) :
    0 ≤ dataCompleteness sd cd desc ∧ dataCompleteness sd cd desc ≤ 80 ∧
      dataCompleteness sd cd desc % 10 = 0 := by
  unfold dataCompleteness
  split_ifs <;> omega

theorem confidence_eq_round {m d : ℤ} (hm0 : 0 < m)
    (hm5 : m % 5 = 0 ∨ m % 5 = 2) (hd0 : 0 ≤ d) (hd10 : d % 10 = 0) :
    min 100 (pyInt ((m : ℚ) * (6/10) + (d : ℚ) * (4/10))) =
      max 0 (min 100 ⌊(m : ℚ) * (6/10) + (d : ℚ) * (4/10) + 1/2⌋) := by
  have hq : (m : ℚ) * (6/10) + (d : ℚ) * (4/10) =
      ((6*m + 4*d : ℤ) : ℚ) / ((10:ℕ) : ℚ) := by
    push_cast
    ring
  have hq2 : (m : ℚ) * (6/10) + (d : ℚ) * (4/10) + 1/2 =
      ((6*m + 4*d + 5 : ℤ) : ℚ) / ((10:ℕ) : ℚ) := by
    push_cast
    ring
  have hnn : (0:ℚ) ≤ (m : ℚ) * (6/10) + (d : ℚ) * (4/10) := by
    have h1 : (0:ℚ) ≤ (m:ℚ) := by exact_mod_cast hm0.le
    have h2 : (0:ℚ) ≤ (d:ℚ) := by exact_mod_cast hd0
    positivity
  rw [pyInt_eq_floor hnn, hq2, hq, Rat.floor_intCast_div_natCast,
    Rat.floor_intCast_div_natCast]
  omega

/-- C4: when `troubleshoot` succeeds, the returned confidence is 50 if no
issue was found, and otherwise equals
`round(0.6 * max_issue_severity + 0.4 * data_completeness)` clamped to
`[0, 100]`, where data completeness adds 30 for SSID data, 30 for client data
and 20 for a free-text description (rounding written as
`⌊x + 1/2⌋`, which agrees with Python's banker rounding here because the
reachable severities make a tie impossible). -/
theorem c4_confidence (n : String) (sd : Option SsidData)
    (cd : Option ClientData) (desc : Option String) (api : Option ApiEnv)
    (kb : KbEnv) (res : TroubleshootingResult)
    (h : troubleshoot n sd cd desc api kb = .ok res) :
    (res.issues = [] → res.confidence = 50) ∧
    (res.issues ≠ [] →
      res.confidence =
        max 0 (min 100
          ⌊(maxSeverity res.issues : ℚ) * (6/10) +
            (dataCompleteness sd cd desc : ℚ) * (4/10) + 1/2⌋)) := by
  unfold troubleshoot at h
  split at h
  · exact Except.noConfusion h
  · split at h
    · exact Except.noConfusion h
    · rename_i ssidIssues hssid
      injection h with h
      subst h
      dsimp only [mkTroubleshootingResult]
      constructor
      · intro hnil
        rw [calculateConfidence, if_pos hnil]
      · intro hne
        rw [calculateConfidence, if_neg hne]
        have hall := @troubleshootIssues_sev _ cd desc sd api
          (checkSsidIssues_sev hssid)
        obtain ⟨j, hj, hmax⟩ := maxSeverity_mem hne
        obtain ⟨hj5, hj0⟩ := hall j hj
        obtain ⟨hd0, _, hd10⟩ := dataCompleteness_facts sd cd desc
        rw [hmax] at *
        exact confidence_eq_round hj0 hj5 hd0 hd10

/-- Witness for C4: a disabled SSID yields the single severity-90
`ssid_disabled` issue with data completeness 30, and the confidence 66 indeed
matches the rounded formula. -/
theorem c4_confidence_witness :
    troubleshoot "net" (some c4sd) none none none {} = .ok c4res ∧
    c4res.issues ≠ [] ∧
    c4res.confidence =
      max 0 (min 100
        ⌊(maxSeverity c4res.issues : ℚ) * (6/10) +
          (dataCompleteness (some c4sd) none none : ℚ) * (4/10) + 1/2⌋) :=
  ⟨by decide, by decide,
    (c4_confidence "net" (some c4sd) none none none {} c4res
      (by decide)).2 (by decide)⟩


end MerakiMCP
